import Mathlib

/-!
# Verification of the kawtutor dialogue core (`src/api/tutor.js`)

This file shallowly embeds the deterministic dialogue state machine of the
kawtutor repository: the text normalizer and extractors, the sufficiency
blocklists, the stage resolver, the pending sub-machine, the question router
(`computeNextQuestion`), the turn update function (`updateStateFromStudent`),
state normalization (`normalizeIncomingState`), the keyword safety classifier
(`classifyMessage`), and the per-turn HTTP handler skeleton.

Conventions of the embedding:
* JavaScript strings are Lean `String`s; most work happens on `List Char`
  (`String.data`).  `toLowerCase` is modelled on the ASCII letter range (all
  keyword tables and guards in the source are ASCII).
* JS falsiness of strings is emptiness (`s = ""`); absent object properties on
  pending payloads are modelled by `""` / `none`.
* JS arrays of detail buckets are `List (List String)`.  Writing past the end
  of a JS array (`details[i] = b` with `i ≥ length`) creates holes, which every
  read site in the source converts to `[]` (`Array.isArray(x) ? x : []`), so
  holes are modelled as `[]` buckets (observationally equivalent here).
* The external collaborators (LLM language detection, yes/no classification,
  translation) are modelled by an explicit oracle record; their deterministic
  pre-checks from the source are kept.
-/

set_option maxRecDepth 100000
set_option maxHeartbeats 2000000

namespace Kawtutor

/-! ## Characters and whitespace (JS `\s`, ASCII fragment) -/

/-- Whitespace characters recognised by the JS `\s` class / `trim`, restricted
to the ASCII range that can occur in this code base. -/
def jsWs (c : Char) : Bool :=
  c = ' ' || c = '\t' || c = '\n' || c = '\r' || c = '\x0b' || c = '\x0c'

/-- ASCII lower-casing of one character (JS `toLowerCase`). -/
def lowerChar (c : Char) : Char :=
  if 'A' ≤ c && c ≤ 'Z' then Char.ofNat (c.toNat + 32) else c

/-- ASCII lower-casing of a character list. -/
def lowerList (l : List Char) : List Char := l.map lowerChar

/-- ASCII lower-casing of a string (JS `s.toLowerCase()`). -/
def lowerStr (s : String) : String := ⟨lowerList s.data⟩

/-- JS `s.trim()` on a character list. -/
def jsTrimList (l : List Char) : List Char :=
  ((l.dropWhile jsWs).reverse.dropWhile jsWs).reverse

/-- JS `s.trim()`. -/
def jsTrim (s : String) : String := ⟨jsTrimList s.data⟩

/-- Maximal non-whitespace runs of a character list, in order (the nonempty
pieces of a JS `split(/\s+/)`). -/
def wordsOf : List Char → List (List Char)
  | [] => []
  | [c] => if jsWs c then [] else [[c]]
  | c :: d :: rest =>
    if jsWs c then wordsOf (d :: rest)
    else
      if jsWs d then [c] :: wordsOf (d :: rest)
      else
        match wordsOf (d :: rest) with
        | [] => [[c]]
        | w :: ws => (c :: w) :: ws

/-- `trim` followed by collapsing every internal whitespace run to a single
space: the body of the source's `cleanText` (`(s||"").toString().trim()
.replace(/\s+/g, " ")`), on character lists. -/
def cleanList (l : List Char) : List Char :=
  List.intercalate [' '] (wordsOf l)

/-- `cleanText` from `src/api/tutor.js` (lines 31-33). -/
def cleanText (s : String) : String := ⟨cleanList s.data⟩

/-- Word count of a string as the source computes it:
`s.split(/\s+/).filter(Boolean).length`. -/
def wordCount (s : String) : Nat := (wordsOf s.data).length

/-! ## Substring search (JS `indexOf` / `includes` / `lastIndexOf`) -/

/-- First index of character `x` (JS `indexOf` on a one-character needle). -/
def idxOfChar : List Char → Char → Option Nat
  | [], _ => none
  | c :: t, x => if c = x then some 0 else (idxOfChar t x).map (· + 1)

/-- Last index of character `x` (JS `lastIndexOf`). -/
def lastIdxOfChar : List Char → Char → Option Nat
  | [], _ => none
  | c :: t, x =>
    match lastIdxOfChar t x with
    | some i => some (i + 1)
    | none => if c = x then some 0 else none

/-- JS `haystack.includes(needle)` on character lists. -/
def hasSub : List Char → List Char → Bool
  | [], pat => pat.isEmpty
  | c :: t, pat => pat.isPrefixOf (c :: t) || hasSub t pat

/-- JS `haystack.indexOf(needle)` on character lists (`none` for `-1`). -/
def idxOfSub (l pat : List Char) : Option Nat :=
  if pat.isPrefixOf l then some 0
  else
    match l with
    | [] => none
    | _ :: t => (idxOfSub t pat).map (· + 1)

/-- String-level `includes`. -/
def strIncludes (s pat : String) : Bool := hasSub s.data pat.data

/-- String-level `startsWith`. -/
def strStartsWith (s pat : String) : Bool := pat.data.isPrefixOf s.data

/-- JS `replaceAll` on character lists.  The patterns used in this code base
are never empty; for totality an empty pattern leaves the list unchanged. -/
def replaceAllSub (pat rep : List Char) : List Char → List Char
  | [] => []
  | c :: t =>
    if pat.isPrefixOf (c :: t) && !pat.isEmpty then
      rep ++ replaceAllSub pat rep (t.drop (pat.length - 1))
    else
      c :: replaceAllSub pat rep t
  termination_by l => l.length
  decreasing_by
    · simp [List.length_drop]; omega
    · simp

/-- JS `s.replaceAll(pat, rep)`. -/
def jsReplaceAll (s pat rep : String) : String :=
  ⟨replaceAllSub pat.data rep.data s.data⟩

/-- JS `arr.slice(-n)` (the last `n` elements). -/
def lastN {α : Type} (l : List α) (n : Nat) : List α :=
  l.drop (l.length - n)

/-- The chain `msg.toLowerCase().trim()` that every pending handler applies to
the already-cleaned message (`const normalized = msg.toLowerCase().trim()`). -/
def lowTrim (s : String) : String := jsTrim (lowerStr s)

/-! ## Short-circuit phrase detectors (`src/api/tutor.js` lines 35-52) -/

/-- `isNegative` (tutor.js lines 35-38). -/
def isNegative (s : String) : Bool :=
  let t := lowerStr (cleanText s)
  t = "no" || t = "nope" || t = "nah" || t = "n/a" || t = "none"

/-- `isAffirmative` (tutor.js lines 40-52). -/
def isAffirmative (s : String) : Bool :=
  let t := lowerStr (cleanText s)
  t = "yes" || t = "y" || t = "yeah" || t = "yep" || t = "sure" ||
    t = "correct" || t = "ok" || t = "okay"

/-! ## Single-question enforcement (tutor.js lines 54-73) -/

/-- Strip the trailing run matched by `/[.!\s]*$/`. -/
def stripTrailingPunct (l : List Char) : List Char :=
  (l.reverse.dropWhile (fun c => c = '.' || c = '!' || jsWs c)).reverse

/-- `enforceSingleQuestion` (tutor.js lines 55-73): keep only the first
question if several question marks appear, append a question mark if none
exists, and fall back to a fixed question on empty input. -/
def enforceSingleQuestion (text : String) : String :=
  let out := jsTrimList text.data
  if out = [] then "Can you say more?"
  else
    let firstQ := idxOfChar out '?'
    let lastQ := lastIdxOfChar out '?'
    let out :=
      match firstQ, lastQ with
      | some f, some g => if g ≠ f then jsTrimList (out.take (f + 1)) else out
      | _, _ => out
    if !hasSub out ['?'] then ⟨stripTrailingPunct out ++ ['?']⟩
    else ⟨out⟩

/-! ## Key-topic blocklist and extractors (tutor.js lines 75-147) -/

/-- `GENERIC_KEY_TOPICS` (tutor.js lines 75-91). -/
def GENERIC_KEY_TOPICS : List String :=
  ["my assignment", "the assignment", "my essay", "this essay", "my paper",
   "this paper", "my paragraph", "this paragraph", "my topic", "the topic",
   "topic", "key topic", "it", "this", "that"]

/-- `isBadKeyTopic` (tutor.js lines 93-99). -/
def isBadKeyTopic (keyTopic : String) : Bool :=
  let kt := lowerStr (cleanText keyTopic)
  if kt = "" then true
  else if GENERIC_KEY_TOPICS.contains kt then true
  else if strStartsWith kt "my " then true
  else false

/-- Result of the `"X is about Y"` extractor. -/
structure TopicIsAbout where
  keyTopic : String
  isAbout : String
  deriving DecidableEq, Repr

/-- `parseKeyTopicIsAbout` (tutor.js lines 101-118): split the cleaned message
at the first case-insensitive occurrence of `" is about "`, reject generic or
empty labels and labels outside 2-5 words. -/
def parseKeyTopicIsAbout (msg : String) : Option TopicIsAbout :=
  let m := cleanText msg
  match idxOfSub (lowerList m.data) " is about ".data with
  | none => none
  | some idx =>
    let keyTopic := cleanText ⟨m.data.take idx⟩
    let isAbout := cleanText ⟨m.data.drop (idx + " is about ".length)⟩
    if keyTopic = "" || isAbout = "" then none
    else if isBadKeyTopic keyTopic then none
    else
      let wc := wordCount keyTopic
      if wc < 2 || wc > 5 then none
      else some ⟨keyTopic, isAbout⟩

/-- Result of the cause/effect extractor. -/
structure CauseEffectPair where
  cause : String
  effect : String
  deriving DecidableEq, Repr

/-- `parseCauseEffectLeadsTo` (tutor.js lines 121-147): strip the optional
`"this topic is about how "` lead-in and split at `" leads to "`. -/
def parseCauseEffectLeadsTo (isAboutRaw : String) : Option CauseEffectPair :=
  let t0 := cleanText isAboutRaw
  if t0 = "" then none
  else
    let pfx := "this topic is about how "
    let t :=
      if strStartsWith (lowerStr t0) pfx then cleanText ⟨t0.data.drop pfx.length⟩
      else t0
    match idxOfSub (lowerList t.data) " leads to ".data with
    | none => none
    | some idx =>
      let cause := cleanText ⟨t.data.take idx⟩
      let effect := cleanText ⟨t.data.drop (idx + " leads to ".length)⟩
      if cause = "" || effect = "" then none
      else some ⟨cause, effect⟩

/-! ## Stuck support and menu normalizers (tutor.js lines 254-297, 481-497,
580-595) -/

/-- `detectStuckTone` (tutor.js lines 254-262). -/
def detectStuckTone (text : String) : String :=
  let t := lowerStr (cleanText text)
  if t = "" then "neutral"
  else
    let frustration := ["confus", "stupid", "dumb", "hate", "annoy",
      "frustrat", "angry", "mad", "ugh", "this sucks", "do we have to"]
    if frustration.any (fun p => strIncludes t p) then "frustration"
    else
      let resistance := ["do we have to", "why do we have to",
        "why am i doing", "what's the point", "pointless"]
      if resistance.any (fun p => strIncludes t p) then "resistance"
      else "neutral"

/-- `normalizePurpose` (tutor.js lines 264-275). -/
def normalizePurpose (msg : String) : Option String :=
  let t := lowerStr (cleanText msg)
  if t = "" then none
  else if strIncludes t "study" || strIncludes t "review" || t = "s" then some "study"
  else if strIncludes t "write" || strIncludes t "essay" || strIncludes t "paragraph"
      || strIncludes t "create" || t = "w" then some "write"
  else if strIncludes t "read" || strIncludes t "note" || strIncludes t "annot"
      || t = "r" then some "read"
  else if t = "1" then some "study"
  else if t = "2" then some "write"
  else if t = "3" then some "read"
  else none

/-- `normalizeFrameTypeSelection` (tutor.js lines 277-291); `""` plays the role
of the JS falsy empty-string result. -/
def normalizeFrameTypeSelection (input : String) : String :=
  let t := jsTrim (lowerStr input)
  if t = "1" || strStartsWith t "1 " then "causeEffect"
  else if t = "2" || strStartsWith t "2 " then "themes"
  else if t = "3" || strStartsWith t "3 " then "reading"
  else if strIncludes t "cause" || strIncludes t "effect" || strIncludes t "how"
      || strIncludes t "why" then "causeEffect"
  else if strIncludes t "theme" || strIncludes t "big idea"
      || strIncludes t "central idea" then "themes"
  else if strIncludes t "read" || strIncludes t "text" || strIncludes t "source"
      || strIncludes t "note" then "reading"
  else ""

/-- `isStuckMessage` (tutor.js lines 481-497). -/
def isStuckMessage (text : String) : Bool :=
  let t := lowerStr (cleanText text)
  if t = "" then false
  else
    let wc := (wordsOf t.data).length
    if wc > 14 then false
    else
      let patterns := ["i don't know", "i dont know", "idk", "dont know",
        "i'm confused", "im confused", "confused",
        "i don't get it", "i dont get it", "dont get it",
        "help", "can you help", "stuck", "not sure", "i forgot",
        "i can't", "i cant", "no idea"]
      patterns.any (fun p => strIncludes t p)

/-- `normalizeStuckChoice` (tutor.js lines 580-595); `none` for `null`. -/
def normalizeStuckChoice (msg : String) : Option String :=
  let t := lowerStr (cleanText msg)
  if t = "" then none
  else if t = "1" || strStartsWith t "1 " then some "1"
  else if t = "2" || strStartsWith t "2 " then some "2"
  else if t = "3" || strStartsWith t "3 " then some "3"
  else if t = "4" || strStartsWith t "4 " then some "4"
  else if strIncludes t "direction" || strIncludes t "prompt" then some "1"
  else if strIncludes t "re-read" || strIncludes t "reread"
      || strIncludes t "notes" || strIncludes t "text" then some "2"
  else if strIncludes t "smaller" || strIncludes t "small"
      || strIncludes t "mini" then some "3"
  else if strIncludes t "skip" || strIncludes t "later"
      || strIncludes t "come back" then some "4"
  else none

/-! ## Data model (tutor.js lines 600-635) -/

/-- `frameMeta.causeEffect` payload. -/
structure CauseEffectVars where
  cause : String
  effect : String
  deriving DecidableEq, Repr

/-- `frameMeta`: the learner's purpose (`study|write|read`), chosen frame type
(`causeEffect|themes|reading`) and extracted cause/effect variables. -/
structure FrameMeta where
  purpose : String
  frameType : String
  causeEffect : CauseEffectVars
  deriving DecidableEq, Repr

/-- The Frame record (key topic, is-about, main ideas, per-idea detail
buckets, so-what). -/
structure Frame where
  keyTopic : String
  isAbout : String
  mainIdeas : List String
  details : List (List String)
  soWhat : String
  deriving DecidableEq, Repr

/-- The stage strings returned by `getStage` (tutor.js lines 499-516);
`details i` models the string `"details:" ++ toString i`. -/
inductive Stage where
  | purpose
  | frameType
  | keyTopic
  | isAbout
  | mainIdeas
  | details (i : Nat)
  | soWhat
  | refine
  deriving DecidableEq, Repr

/-- The stage string stored in stuck pending payloads (`details:i` etc). -/
def stageKey : Stage → String
  | .purpose => "purpose"
  | .frameType => "frameType"
  | .keyTopic => "keyTopic"
  | .isAbout => "isAbout"
  | .mainIdeas => "mainIdeas"
  | .details i => "details:" ++ toString i
  | .soWhat => "soWhat"
  | .refine => "refine"

/-- The tagged pending objects created by tutor.js, one constructor per
`type` string, with the payload fields the source stores.  String payload
fields use `""` for an absent JS property and `stage` uses `none`; both are
falsy in the source's `p.x || fallback` reads. -/
inductive Pending where
  | confirmLanguageSwitch (candidateCode candidateName candidateNativeName candidateDir : String)
  | stuckConfirm (stage : Option Stage) (tone resumeQuestion miniQuestion : String)
  | stuckMenu (stage : Option Stage) (tone resumeQuestion miniQuestion : String)
  | stuckReask (mode resumeQuestion : String)
  | stuckNudge (stage : Option Stage) (tone nudgeText resumeQuestion : String)
  | stuckMini (stage : Option Stage) (miniQuestion resumeQuestion : String)
  | stuckSkip (stage : Option Stage) (resumeQuestion miniQuestion : String)
  | confirmIsAbout
  | confirmMainIdeas
  | offerThirdMainIdea
  | collectThirdMainIdea
  | offerThirdDetail (index : Nat)
  | collectThirdDetail (index : Nat)
  | confirmDetails (index : Nat)
  | offerMoreSoWhat
  | collectMoreSoWhat
  | confirmSoWhat
  | offerExport
  | chooseExportType
  deriving DecidableEq, Repr

/-- Session language settings. -/
structure Settings where
  language : String
  languageName : String
  languageNativeName : String
  dir : String
  languageLocked : Bool
  deriving DecidableEq, Repr

/-- One transcript turn. -/
structure Turn where
  role : String
  text : String
  deriving DecidableEq, Repr

/-- The `exports` bundle attached on completion. -/
structure Exported where
  frameText : String
  transcriptText : String
  html : String
  deriving DecidableEq, Repr

/-- The `flags` record. -/
structure Flags where
  exportOffered : Bool
  exportChoice : Option String
  deriving DecidableEq, Repr

/-- The whole serialized session state (tutor.js `defaultState`, lines
600-635).  The never-read `version` field is omitted; entries of `skips`
keep only their `stage` string (the `at: Date.now()` timestamp is an external
clock value that nothing reads). -/
structure TutorState where
  frameMeta : FrameMeta
  frame : Frame
  pending : Option Pending
  settings : Settings
  transcript : List Turn
  exports : Option Exported
  flags : Flags
  skips : List String
  deriving DecidableEq, Repr

/-- `defaultState` (tutor.js lines 600-635). -/
def defaultState : TutorState where
  frameMeta := ⟨"", "", ⟨"", ""⟩⟩
  frame := ⟨"", "", [], [], ""⟩
  pending := none
  settings := ⟨"en", "English", "English", "ltr", false⟩
  transcript := []
  exports := none
  flags := ⟨false, none⟩
  skips := []

/-- Transcript cap (`TRANSCRIPT_MAX_TURNS`, tutor.js line 13). -/
def TRANSCRIPT_MAX_TURNS : Nat := 200

/-- Minimum text length for language detection (`LANG_DETECT_MIN_CHARS`,
tutor.js line 16). -/
def LANG_DETECT_MIN_CHARS : Nat := 18

/-! ## Stage resolver (tutor.js lines 499-516) -/

/-- First index `i` (starting at `i0`, for `n` steps) whose detail bucket has
fewer than two entries: the search loop shared by `getStage`,
`computeNextQuestion` and the details-capture step. -/
def firstIncompleteAux (details : List (List String)) : Nat → Nat → Option Nat
  | _, 0 => none
  | i, n + 1 =>
    if (details.getD i []).length < 2 then some i
    else firstIncompleteAux details (i + 1) n

/-- First main-idea index whose detail bucket has fewer than two entries. -/
def firstIncompleteBucket (mainIdeas : List String)
    (details : List (List String)) : Option Nat :=
  firstIncompleteAux details 0 mainIdeas.length

/-- `getStage` (tutor.js lines 499-516). -/
def getStage (s : TutorState) : Stage :=
  if s.frameMeta.purpose = "" then .purpose
  else if s.frameMeta.frameType = "" then .frameType
  else if s.frame.keyTopic = "" then .keyTopic
  else if s.frame.isAbout = "" then .isAbout
  else if s.frame.mainIdeas.length < 2 then .mainIdeas
  else
    match firstIncompleteBucket s.frame.mainIdeas s.frame.details with
    | some i => .details i
    | none => if s.frame.soWhat = "" then .soWhat else .refine

/-! ## Prompt bank (tutor.js lines 293-382) -/

/-- `fillTopic` (tutor.js lines 293-295). -/
def fillTopic (template keyTopic : String) : String :=
  jsReplaceAll template "[Key Topic]" (if keyTopic = "" then "your topic" else keyTopic)

/-- `safeEffectFromState` (tutor.js lines 297-300). -/
def safeEffectFromState (s : TutorState) : String :=
  let eff := cleanText s.frameMeta.causeEffect.effect
  if eff = "" then "the effect" else eff

/-- `PROMPT_BANK[purpose][frameType].isAbout` (tutor.js lines 306-336). -/
def promptBankIsAbout (purpose frameType : String) : Option String :=
  if purpose = "study" && frameType = "causeEffect" then
    some "In your own words, what is happening in \"[Key Topic]\", and why is it important?"
  else if purpose = "write" && frameType = "causeEffect" then
    some "Complete this sentence: This topic is about how ______ leads to ______."
  else none

/-- `PROMPT_BANK[purpose][frameType].mainIdea`. -/
def promptBankMainIdea (purpose frameType : String) : Option String :=
  if purpose = "study" && frameType = "causeEffect" then
    some "What is one major cause or effect that is important to remember?"
  else if purpose = "write" && frameType = "causeEffect" then
    some "What is the first major cause that leads to [EFFECT]?"
  else none

/-- `PROMPT_BANK[purpose][frameType].detail` (only the study bank has one). -/
def promptBankDetail (purpose frameType : String) : Option String :=
  if purpose = "study" && frameType = "causeEffect" then
    some "What is an important detail that explains how or why this cause or effect occurs?"
  else none

/-- `PROMPT_BANK.write.causeEffect.detailExplain`. -/
def promptDetailExplain : String := "How does [MAIN IDEA] lead to [EFFECT]?"

/-- `PROMPT_BANK.write.causeEffect.detailEvidence`. -/
def promptDetailEvidence : String :=
  "What evidence or example will you use to support the idea that [MAIN IDEA] leads to [EFFECT]?"

/-- `PROMPT_BANK[purpose][frameType].soWhat`. -/
def promptBankSoWhat (purpose frameType : String) : Option String :=
  if purpose = "study" && frameType = "causeEffect" then
    some "When you look at all of these causes and effects together, what can you conclude about \"[Key Topic]\"?"
  else if purpose = "write" && frameType = "causeEffect" then
    some "Why should people care about this effect?"
  else none

/-- `getPromptForStage` (tutor.js lines 338-382). -/
def getPromptForStage (s : TutorState) (stage : Stage) : Option String :=
  let purpose := s.frameMeta.purpose
  let frameType := s.frameMeta.frameType
  let kt := s.frame.keyTopic
  match stage with
  | .isAbout => (promptBankIsAbout purpose frameType).map (fun tpl => fillTopic tpl kt)
  | .mainIdeas => promptBankMainIdea purpose frameType
  | .details idx =>
    if purpose = "write" && frameType = "causeEffect" then
      let mi0 := s.frame.mainIdeas.getD idx ""
      let mi := if mi0 = "" then "this Main Idea" else mi0
      let arr := s.frame.details.getD idx []
      let effect := safeEffectFromState s
      let tpl := if arr.length = 0 then promptDetailExplain else promptDetailEvidence
      some (jsReplaceAll (jsReplaceAll tpl "[MAIN IDEA]" mi) "[EFFECT]" effect)
    else promptBankDetail purpose frameType
  | .soWhat => (promptBankSoWhat purpose frameType).map (fun tpl => fillTopic tpl kt)
  | _ => none

/-! ## Stuck nudges and mini questions (tutor.js lines 384-478, 518-578) -/

/-- `buildStuckNudges` (tutor.js lines 384-474). -/
def buildStuckNudges (s : TutorState) (stage : Stage) : List String :=
  let purpose := s.frameMeta.purpose
  let frameType := s.frameMeta.frameType
  if purpose = "write" && frameType = "causeEffect" then
    let effect := safeEffectFromState s
    match stage with
    | .keyTopic =>
      ["Name a specific event, issue, or situation (not a broad category)",
       "Try adding a little context (who/where/when)",
       "Make it something you could put in a short title"]
    | .isAbout =>
      ["Start with the effect (the outcome) you want to explain",
       "Then name what causes " ++ effect,
       "Use the words \"leads to\" to show direction"]
    | .mainIdeas =>
      ["What is one thing that directly contributes to " ++ effect,
       "Think: policies, choices, conditions, actions, or events",
       "If you’re unsure, pick the cause you can explain most clearly"]
    | .details idx =>
      let mi0 := s.frame.mainIdeas.getD idx ""
      let mi := if mi0 = "" then "this cause" else mi0
      let arr := s.frame.details.getD idx []
      if arr.length = 0 then
        ["What happens between \"" ++ mi ++ "\" and \"" ++ effect ++ "\"",
         "Describe the chain in simple steps",
         "Use: because ___, then ___, which leads to ___"]
      else
        ["Pick one: a statistic, a real example, a quote, or a quick scenario",
         "What could you point to that supports \"" ++ mi ++ "\"",
         "Even a classroom or personal example can work"]
    | .soWhat =>
      ["What could happen if \"" ++ effect ++ "\" continues",
       "Who is impacted most, and what changes for them",
       "What is one real-world consequence that makes this urgent"]
    | _ => genericNudges stage
  else if purpose = "study" && frameType = "causeEffect" then
    match stage with
    | .mainIdeas =>
      ["What caused this to happen", "What happened because of it",
       "Is this a cause or an effect"]
    | .details _ =>
      ["How does this happen", "Why does this happen",
       "What shows the connection between the cause and the effect"]
    | .soWhat =>
      ["What changed from beginning to end",
       "What connects all of these causes and effects",
       "What do they have in common", "What conclusion can you draw"]
    | _ => genericNudges stage
  else genericNudges stage
where
  /-- The generic fallback nudge lists (tutor.js lines 469-473). -/
  genericNudges : Stage → List String
  | .mainIdeas =>
    ["Think of one important part", "Think of one reason or cause",
     "Think of one result or effect"]
  | .details _ =>
    ["Look for one example", "Look for one fact that supports it",
     "Look for one specific detail"]
  | .soWhat =>
    ["What is important here", "Why should someone care",
     "What does this mean overall"]
  | _ => ["Take a deep breath", "Start rough", "You can revise later"]

/-- `formatNudgeText` (tutor.js lines 476-479). -/
def formatNudgeText (nudges : List String) : String :=
  let items :=
    String.intercalate "\n" ((nudges.take 4).map (fun x => "- " ++ cleanText x))
  if items = "" then "" else "Here are a few quick nudges (pick one):\n" ++ items

/-- `buildMiniQuestion` (tutor.js lines 518-578). -/
def buildMiniQuestion (s : TutorState) : String :=
  let stage := getStage s
  let isWriteCE := s.frameMeta.purpose = "write" && s.frameMeta.frameType = "causeEffect"
  match stage with
  | .purpose =>
    "Which fits best: study/review, write/create, or create notes from a reading/source? (study/write/read)"
  | .frameType =>
    "Which one: 1) cause/effect, 2) themes, or 3) reading frames? (1–3)"
  | .keyTopic =>
    if isWriteCE then "What event, issue, or situation are you writing about? (2–5 words)"
    else "If you had to title this in 4 words, what would the title be?"
  | .isAbout =>
    if isWriteCE then "Complete this sentence: This topic is about how ______ leads to ______."
    else "In one rough sentence, what is happening in your topic and why does it matter?"
  | .mainIdeas =>
    if isWriteCE then
      "What is one major cause that leads to " ++ safeEffectFromState s ++ "?"
    else if s.frameMeta.purpose = "study" && s.frameMeta.frameType = "causeEffect" then
      "What is one major cause or effect related to \"" ++ s.frame.keyTopic ++ "\"? (Rough is fine.)"
    else
      "What is one reason, part, or cause related to \"" ++ s.frame.keyTopic ++ "\"? (Rough is fine.)"
  | .details idx =>
    let mi0 := s.frame.mainIdeas.getD idx ""
    let mi := if mi0 = "" then "this Main Idea" else mi0
    if isWriteCE then
      let effect := safeEffectFromState s
      let arr := s.frame.details.getD idx []
      if arr.length = 0 then "How does \"" ++ mi ++ "\" lead to " ++ effect ++ "?"
      else
        "What evidence or example will you use to support the idea that \"" ++ mi
          ++ "\" leads to " ++ effect ++ "?"
    else
      "What is one specific example from your text/notes that connects to: \"" ++ mi ++ "\"?"
  | .soWhat =>
    if isWriteCE then "Why should people care about this effect?"
    else if s.frameMeta.purpose = "study" && s.frameMeta.frameType = "causeEffect" then
      "When you look at the causes and effects together, what can you conclude about \""
        ++ s.frame.keyTopic ++ "\"?"
    else
      "Who is affected by \"" ++ s.frame.keyTopic ++ "\", and why should they care?"
  | .refine =>
    "What part feels easiest to improve right now: Key Topic, Is About, Main Ideas, Details, or So What?"

/-! ## Question router (tutor.js lines 804-971) -/

/-- Case-insensitive anchored prefix test (JS `/^pat/i.test(s)`). -/
def startsWithCI (s pat : String) : Bool :=
  (lowerList pat.data).isPrefixOf (lowerList s.data)

/-- JS `s.replace(/\?\s*$/, "")`: drop one final question mark together with
any whitespace after it; leave the string unchanged when it does not end in
(whitespace after) a question mark. -/
def stripFinalQuestionMark (s : String) : String :=
  match s.data.reverse.dropWhile jsWs with
  | '?' :: rest => ⟨rest.reverse⟩
  | _ => s

/-- Numbered list `1) x\n2) y\n...` used by the confirmation questions. -/
def numberedLines (items : List String) : String :=
  String.intercalate "\n" (items.enum.map (fun p => toString (p.1 + 1) ++ ") " ++ p.2))

/-- `computeNextQuestion` (tutor.js lines 804-971): the question router.  If a
pending state is active its branch owns the output; otherwise the base
progression (purpose, frame type, key topic, is-about, main ideas, details,
so-what, refine) chooses the question. -/
def computeNextQuestion (s : TutorState) : String :=
  match s.pending with
  | some (.confirmLanguageSwitch _ cn cnn _) =>
    let candNative := if cnn ≠ "" then cnn else if cn ≠ "" then cn else "that language"
    let candName := if cn ≠ "" then cn else "that language"
    "I notice you’re writing in " ++ candName ++ ". Would you like to continue in "
      ++ candNative ++ "? (yes/no)"
  | some (.stuckConfirm _ _ _ _) =>
    "Sounds like you’re stuck. Want a quick help move? (yes/no)"
  | some (.stuckMenu _ _ _ _) =>
    "Pick a quick help move: 1) Check directions  2) Re-read source/notes  "
      ++ "3) I’ll ask a smaller question for this step  4) Skip for now and come back. "
      ++ "Which one (1–4)?"
  | some (.stuckReask mode rq) =>
    let tip :=
      if mode = "directions" then
        "Quick reset: re-read the prompt and underline the verb (explain/argue/compare)."
      else
        "Quick reset: skim your notes/text and pick one phrase that feels important."
    tip ++ " Then answer: " ++ rq
  | some (.stuckNudge _ tn nt rq) =>
    let tone := if tn = "" then "neutral" else tn
    let ack :=
      if tone = "frustration" then "That can feel frustrating. "
      else if tone = "resistance" then "I hear you. "
      else ""
    ack ++ cleanText nt ++ " Then answer: " ++ rq
  | some (.stuckMini _ mq _) => if mq = "" then buildMiniQuestion s else mq
  | some (.stuckSkip _ _ _) =>
    "Got it — we’ll come back to this. Want to try the next step now? (yes/no)"
  | some .confirmIsAbout =>
    "\"" ++ s.frame.keyTopic ++ "\" is about \"" ++ s.frame.isAbout
      ++ "\". Is that correct, or would you like to revise it?"
  | some .confirmMainIdeas =>
    "You have identified the following Main Ideas:\n" ++ numberedLines s.frame.mainIdeas
      ++ "\nIs that correct, or would you like to revise one?"
  | some .offerThirdMainIdea => "Do you have a third Main Idea? (yes/no)"
  | some .collectThirdMainIdea =>
    "What is your third Main Idea that helps explain " ++ s.frame.keyTopic ++ "?"
  | some (.offerThirdDetail i) =>
    "For this Main Idea: \"" ++ s.frame.mainIdeas.getD i ""
      ++ "\", do you have a third Supporting Detail? (yes/no)"
  | some (.collectThirdDetail i) =>
    "What is your third Supporting Detail for this Main Idea: \""
      ++ s.frame.mainIdeas.getD i "" ++ "\"?"
  | some (.confirmDetails i) =>
    "For this Main Idea: \"" ++ s.frame.mainIdeas.getD i ""
      ++ "\", you identified the following Supporting Details:\n"
      ++ numberedLines (s.frame.details.getD i [])
      ++ "\nIs that correct, or would you like to revise one?"
  | some .offerMoreSoWhat => "Do you want to add one more sentence to your So What? (yes/no)"
  | some .collectMoreSoWhat => "Add one more sentence to your So What:"
  | some .confirmSoWhat =>
    "Your So What is: \"" ++ s.frame.soWhat
      ++ "\". Is that correct, or would you like to revise it?"
  | some .offerExport => "Would you like to save or print a copy of your work? (yes/no)"
  | some .chooseExportType =>
    "What would you like to save/print: frame, transcript, or both? (frame/transcript/both)"
  | none =>
    if s.frameMeta.purpose = "" then
      "How will you use this Frame: studying/review, writing/creating, or create notes from a reading or source? (study/write/read)"
    else if s.frameMeta.frameType = "" then
      "What kind of thinking are you doing: 1) Explain how/why something happens (Linear & Cause-and-Effect Relationships)  "
        ++ "2) Explain a big idea or theme (Framing Themes)  "
        ++ "3) Organize ideas from a text or source (Reading Frames). "
        ++ "Which one (1–3)?"
    else if s.frame.keyTopic = "" then
      if s.frameMeta.purpose = "write" && s.frameMeta.frameType = "causeEffect" then
        "What event, issue, or situation are you writing about? (2–5 words)"
      else "What is your Key Topic? (2–5 words)"
    else if s.frame.isAbout = "" then
      match getPromptForStage s .isAbout with
      | some pb => pb
      | none => "Finish this sentence: \"" ++ s.frame.keyTopic ++ " is about ____.\""
    else if s.frame.mainIdeas.length < 2 then
      if s.frameMeta.purpose = "write" && s.frameMeta.frameType = "causeEffect" then
        let effect := safeEffectFromState s
        if s.frame.mainIdeas.length = 0 then
          "What is the first major cause that leads to " ++ effect ++ "?"
        else "What is the second major cause?"
      else
        match getPromptForStage s .mainIdeas with
        | some pb =>
          if startsWithCI pb "What is one major cause or effect" then
            let c := s.frame.mainIdeas.length
            let ord := if c = 0 then "first" else if c = 1 then "second" else "next"
            "What is your " ++ ord ++ ⟨pb.data.drop "What is one".length⟩
          else pb
        | none =>
          if s.frame.mainIdeas.length = 0 then
            "What is your first Main Idea that helps explain " ++ s.frame.keyTopic ++ "?"
          else "What is your second Main Idea that helps explain " ++ s.frame.keyTopic ++ "?"
    else
      match firstIncompleteBucket s.frame.mainIdeas s.frame.details with
      | some i =>
        let mi := s.frame.mainIdeas.getD i ""
        let arr := s.frame.details.getD i []
        match getPromptForStage s (.details i) with
        | some pb =>
          if s.frameMeta.purpose = "write" && s.frameMeta.frameType = "causeEffect" then pb
          else
            "For this Main Idea: \"" ++ mi ++ "\", " ++ stripFinalQuestionMark pb ++ "?"
        | none =>
          if arr.length = 0 then
            "What is your first Supporting Detail for this Main Idea: \"" ++ mi ++ "\"?"
          else
            "What is your second Supporting Detail for this Main Idea: \"" ++ mi ++ "\"?"
      | none =>
        if s.frame.soWhat = "" then
          match getPromptForStage s .soWhat with
          | some pb => pb
          | none => "So what? Why does \"" ++ s.frame.keyTopic ++ "\" matter? (1–2 sentences)"
        else
          "Want to refine anything (Key Topic, Is About, Main Ideas, Details, or So What)?"

/-! ## Bucket maintenance (tutor.js lines 976-982) -/

/-- JS `details[i] = b`: in-range assignment replaces the bucket, past-the-end
assignment extends the array (holes read back as `[]`, see the header note). -/
def jsSetBucket (l : List (List String)) (i : Nat) (b : List String) :
    List (List String) :=
  if i < l.length then l.set i b
  else l ++ List.replicate (i - l.length) [] ++ [b]

/-- `if (!Array.isArray(details[i])) details[i] = []`: entries below the
length are already buckets, so only past-the-end indices extend the array. -/
def ensureIdxBucket (l : List (List String)) (i : Nat) : List (List String) :=
  if i < l.length then l else jsSetBucket l i []

/-- Net effect of the `ensureBuckets` loop on the details array: pad with
empty buckets up to the number of main ideas. -/
def padBuckets (details : List (List String)) (n : Nat) : List (List String) :=
  details ++ List.replicate (n - details.length) []

/-- `ensureBuckets` (tutor.js lines 976-982) as a pure state transformer. -/
def ensureBucketsS (s : TutorState) : TutorState :=
  { s with frame := { s.frame with
      details := padBuckets s.frame.details s.frame.mainIdeas.length } }

/-! ## Completion and exports (tutor.js lines 716-799, 984-992) -/

/-- `isFrameComplete` (tutor.js lines 716-728). -/
def isFrameComplete (s : TutorState) : Bool :=
  s.frame.keyTopic ≠ "" && s.frame.isAbout ≠ "" &&
    2 ≤ s.frame.mainIdeas.length &&
    (List.range s.frame.mainIdeas.length).all
      (fun i => 2 ≤ (s.frame.details.getD i []).length) &&
    s.frame.soWhat ≠ ""

/-- `buildFrameText` (tutor.js lines 730-753). -/
def buildFrameText (s : TutorState) : String :=
  let eff := cleanText s.frameMeta.causeEffect.effect
  let headLines :=
    ["KEY TOPIC: " ++ s.frame.keyTopic, "IS ABOUT: " ++ s.frame.isAbout]
      ++ (if eff ≠ "" then ["EFFECT: " ++ eff] else [])
      ++ ["", "MAIN IDEAS + SUPPORTING DETAILS:"]
  let ideaLines := s.frame.mainIdeas.enum.flatMap (fun p =>
    (toString (p.1 + 1) ++ ") " ++ p.2)
      :: ((s.frame.details.getD p.1 []).enum.map (fun q =>
            "   - Detail " ++ toString (q.1 + 1) ++ ": " ++ q.2) ++ [""]))
  jsTrim (String.intercalate "\n"
    (headLines ++ ideaLines ++ ["SO WHAT: " ++ s.frame.soWhat]))

/-- `buildTranscriptText` (tutor.js lines 755-758). -/
def buildTranscriptText (s : TutorState) : String :=
  jsTrim (String.intercalate "\n"
    (s.transcript.map (fun t => t.role ++ ": " ++ t.text)))

/-- `escapeHtml` (tutor.js lines 760-767). -/
def escapeHtml (str : String) : String :=
  jsReplaceAll (jsReplaceAll (jsReplaceAll (jsReplaceAll (jsReplaceAll str
    "&" "&amp;") "<" "&lt;") ">" "&gt;") "\"" "&quot;") "'" "&#039;"

/-- `buildExportHtml` (tutor.js lines 769-799).  Literal braces of the inline
CSS are written with `\x7b`/`\x7d` escapes. -/
def buildExportHtml (s : TutorState) : String :=
  let frameText := jsReplaceAll (escapeHtml (buildFrameText s)) "\n" "<br/>"
  let transcriptText := jsReplaceAll (escapeHtml (buildTranscriptText s)) "\n" "<br/>"
  let lang := escapeHtml (if s.settings.language = "" then "en" else s.settings.language)
  let dir := escapeHtml (if s.settings.dir = "" then "ltr" else s.settings.dir)
  "<!doctype html>\n<html lang=\"" ++ lang ++ "\" dir=\"" ++ dir ++ "\">\n<head>\n"
    ++ "  <meta charset=\"utf-8\"/>\n"
    ++ "  <meta name=\"viewport\" content=\"width=device-width, initial-scale=1\"/>\n"
    ++ "  <title>Kaw Companion — Session Export</title>\n"
    ++ "  <style>\n"
    ++ "    body \x7b font-family: Arial, Helvetica, sans-serif; margin: 24px; line-height: 1.35; \x7d\n"
    ++ "    h1 \x7b font-size: 20px; margin: 0 0 12px 0; \x7d\n"
    ++ "    h2 \x7b font-size: 16px; margin: 18px 0 8px 0; \x7d\n"
    ++ "    .box \x7b border: 1px solid #ddd; padding: 12px; border-radius: 10px; \x7d\n"
    ++ "    .muted \x7b color: #666; font-size: 12px; margin-top: 6px; \x7d\n"
    ++ "  </style>\n</head>\n<body>\n"
    ++ "  <h1>Kaw Companion — Session Export</h1>\n\n"
    ++ "  <h2>Structured Frame</h2>\n"
    ++ "  <div class=\"box\">" ++ frameText ++ "</div>\n\n"
    ++ "  <h2>Full Transcript</h2>\n"
    ++ "  <div class=\"box\">"
    ++ (if transcriptText = "" then "<em>(No transcript captured.)</em>" else transcriptText)
    ++ "</div>\n\n"
    ++ "  <div class=\"muted\">Tip: Use your browser’s Print dialog to print or “Save as PDF.”</div>\n"
    ++ "</body>\n</html>"

/-- `appendTurn` (tutor.js lines 984-992) as a pure state transformer. -/
def appendTurn (s : TutorState) (role text : String) : TutorState :=
  let t := cleanText text
  if t = "" then s
  else
    let tr := s.transcript ++ [⟨role, t⟩]
    { s with transcript :=
        if TRANSCRIPT_MAX_TURNS < tr.length then lastN tr TRANSCRIPT_MAX_TURNS else tr }

/-! ## Turn update (tutor.js lines 994-1445) -/

/-- The "normal capture" tail of `updateStateFromStudent` (tutor.js lines
1359-1444): combined `"X is about Y"` extraction, then single-slot capture of
key topic, is-about, main ideas, details, or so-what.  It is reached with
`pending = none`, after a `stuckReask` pending was cleared, or with a
`stuckNudge` pending (which no handler intercepts). -/
def normalCapture (s : TutorState) (msg : String) : TutorState :=
  match parseKeyTopicIsAbout msg with
  | some parsed =>
    -- 1) Extraction rule (lines 1363-1378)
    let kt := if s.frame.keyTopic = "" then parsed.keyTopic else s.frame.keyTopic
    let ia := if s.frame.isAbout = "" then parsed.isAbout else s.frame.isAbout
    let meta :=
      if s.frameMeta.purpose = "write" && s.frameMeta.frameType = "causeEffect" then
        let ce := parseCauseEffectLeadsTo ia
        { s.frameMeta with causeEffect :=
            ⟨(ce.map (fun c => c.cause)).getD "", (ce.map (fun c => c.effect)).getD ""⟩ }
      else s.frameMeta
    { s with frame := { s.frame with keyTopic := kt, isAbout := ia },
             frameMeta := meta, pending := some .confirmIsAbout }
  | none =>
    if s.frame.keyTopic = "" then
      -- 2) Key Topic capture (lines 1381-1388)
      let wc := wordCount msg
      if !isBadKeyTopic msg && 2 ≤ wc && wc ≤ 5 then
        { s with frame := { s.frame with keyTopic := msg } }
      else s
    else if s.frame.isAbout = "" then
      -- 3) Is About capture (lines 1391-1406)
      let lowered := lowTrim msg
      if lowered ≠ "revise" && lowered ≠ "change" then
        let meta :=
          if s.frameMeta.purpose = "write" && s.frameMeta.frameType = "causeEffect" then
            let ce := parseCauseEffectLeadsTo msg
            { s.frameMeta with causeEffect :=
                ⟨(ce.map (fun c => c.cause)).getD "", (ce.map (fun c => c.effect)).getD ""⟩ }
          else s.frameMeta
        { s with frame := { s.frame with isAbout := msg },
                 frameMeta := meta, pending := some .confirmIsAbout }
      else s
    else if s.frame.mainIdeas.length < 2 then
      -- 4) Main Ideas capture (lines 1409-1420)
      if !isNegative msg then
        let mainIdeas := s.frame.mainIdeas ++ [msg]
        let details := ensureIdxBucket s.frame.details (mainIdeas.length - 1)
        let pending :=
          if mainIdeas.length = 2 then some Pending.offerThirdMainIdea else s.pending
        { s with frame := { s.frame with mainIdeas := mainIdeas, details := details },
                 pending := pending }
      else s
    else
      -- 5) Details capture (lines 1423-1433)
      match firstIncompleteBucket s.frame.mainIdeas s.frame.details with
      | some i =>
        let arr := s.frame.details.getD i []
        let details :=
          if !isNegative msg then jsSetBucket s.frame.details i (arr ++ [msg])
          else s.frame.details
        let pending :=
          if (details.getD i []).length = 2 then some (Pending.offerThirdDetail i)
          else s.pending
        { s with frame := { s.frame with details := details }, pending := pending }
      | none =>
        -- 6) So What capture (lines 1436-1442)
        if s.frame.soWhat = "" then
          if !isNegative msg then
            { s with frame := { s.frame with soWhat := msg },
                     pending := some .offerMoreSoWhat }
          else s
        else s

/-- The dispatch of `updateStateFromStudent` (tutor.js lines 1002-1444),
applied after the message was cleaned and the buckets ensured.  The source is
a chain of early-returning guards; the `match` below reproduces its dispatch:
with no pending, purpose / frame-type capture run before normal capture; each
pending type has its handler; `stuckReask` clears itself and falls through to
normal capture; `stuckNudge` has no handler and falls through with its
pending intact. -/
def updateCore (s : TutorState) (msg : String) : TutorState :=
  match s.pending with
  | none =>
    -- Purpose capture (lines 1003-1009) and frame type selection (1012-1018)
    if s.frameMeta.purpose = "" then
      match normalizePurpose msg with
      | some p => { s with frameMeta := { s.frameMeta with purpose := p } }
      | none => normalCapture s msg
    else if s.frameMeta.frameType = "" then
      let ft := normalizeFrameTypeSelection msg
      if ft ≠ "" then { s with frameMeta := { s.frameMeta with frameType := ft } }
      else normalCapture s msg
    else normalCapture s msg
  | some (.confirmLanguageSwitch cc cn cnn cd) =>
    -- lines 1024-1046
    let normalized := lowTrim msg
    if isAffirmative normalized then
      { s with
        settings :=
          { language := if cc = "" then "en" else cc
            languageName := if cn = "" then s.settings.languageName else cn
            languageNativeName := if cnn = "" then s.settings.languageNativeName else cnn
            dir := if cd = "rtl" then "rtl" else "ltr"
            languageLocked := true }
        pending := none }
    else if isNegative normalized then
      { s with settings := ⟨"en", "English", "English", "ltr", true⟩, pending := none }
    else s
  | some (.stuckConfirm st tn rq mq) =>
    -- lines 1049-1066
    let low := lowTrim msg
    if isAffirmative low then
      { s with pending := some (.stuckMenu (some (st.getD (getStage s)))
          (if tn = "" then "neutral" else tn) rq
          (if mq = "" then buildMiniQuestion s else mq)) }
    else if isNegative low then { s with pending := none }
    else s
  | some (.stuckMenu st tn rq mq) =>
    -- lines 1068-1106
    match normalizeStuckChoice msg with
    | none => s
    | some choice =>
      if choice = "1" then { s with pending := some (.stuckReask "directions" rq) }
      else if choice = "2" then { s with pending := some (.stuckReask "reread" rq) }
      else if choice = "3" then
        let stage := st.getD (getStage s)
        let nudgeText := formatNudgeText (buildStuckNudges s stage)
        { s with pending := some (.stuckNudge (some stage)
            (if tn = "" then "neutral" else tn) nudgeText rq) }
      else if choice = "4" then
        { s with skips := s.skips ++ [stageKey (st.getD (getStage s))],
                 pending := some (.stuckSkip (some (st.getD (getStage s))) rq
                   (if mq = "" then buildMiniQuestion s else mq)) }
      else s
  | some (.stuckReask _ _) =>
    -- lines 1108-1111: clear pending and fall through
    normalCapture { s with pending := none } msg
  | some (.stuckSkip st rq mq) =>
    -- lines 1113-1134
    let low := lowTrim msg
    if isAffirmative low then
      { s with pending := some (.stuckMini (some (st.getD (getStage s)))
          (if mq = "" then buildMiniQuestion s else mq) rq) }
    else if isNegative low then
      { s with pending := some (.stuckConfirm (some (st.getD (getStage s))) "" rq
          (if mq = "" then buildMiniQuestion s else mq)) }
    else s
  | some (.stuckMini st _ _) =>
    -- lines 1136-1221
    let stage := st.getD (getStage s)
    match stage with
    | .purpose =>
      match normalizePurpose msg with
      | some p => { s with frameMeta := { s.frameMeta with purpose := p }, pending := none }
      | none => { s with pending := none }
    | .frameType =>
      let ft := normalizeFrameTypeSelection msg
      if ft ≠ "" then
        { s with frameMeta := { s.frameMeta with frameType := ft }, pending := none }
      else { s with pending := none }
    | .keyTopic =>
      let wc := wordCount msg
      if s.frame.keyTopic = "" && !isBadKeyTopic msg && 2 ≤ wc && wc ≤ 5 then
        { s with frame := { s.frame with keyTopic := msg }, pending := none }
      else { s with pending := none }
    | .isAbout =>
      if s.frame.isAbout = "" then
        let meta :=
          if s.frameMeta.purpose = "write" && s.frameMeta.frameType = "causeEffect" then
            -- `if (parsed?.cause) ...` / `if (parsed?.effect) ...`: a successful
            -- parse always has both fields nonempty, a failed one sets nothing.
            match parseCauseEffectLeadsTo msg with
            | some ce => { s.frameMeta with causeEffect := ⟨ce.cause, ce.effect⟩ }
            | none => s.frameMeta
          else s.frameMeta
        { s with frame := { s.frame with isAbout := msg },
                 frameMeta := meta, pending := some .confirmIsAbout }
      else { s with pending := none }
    | .mainIdeas =>
      if s.frame.mainIdeas.length < 2 && !isNegative msg then
        let mainIdeas := s.frame.mainIdeas ++ [msg]
        let details := ensureIdxBucket s.frame.details (mainIdeas.length - 1)
        if mainIdeas.length = 2 then
          { s with frame := { s.frame with mainIdeas := mainIdeas, details := details },
                   pending := some .offerThirdMainIdea }
        else
          { s with frame := { s.frame with mainIdeas := mainIdeas, details := details },
                   pending := none }
      else { s with pending := none }
    | .details idx =>
      let arr := s.frame.details.getD idx []
      if arr.length < 2 && !isNegative msg then
        let details := jsSetBucket s.frame.details idx (arr ++ [msg])
        if (details.getD idx []).length = 2 then
          { s with frame := { s.frame with details := details },
                   pending := some (.offerThirdDetail idx) }
        else
          { s with frame := { s.frame with details := details }, pending := none }
      else { s with pending := none }
    | .soWhat =>
      if s.frame.soWhat = "" && !isNegative msg then
        { s with frame := { s.frame with soWhat := msg },
                 pending := some .offerMoreSoWhat }
      else { s with pending := none }
    | .refine => { s with pending := none }
  | some (.stuckNudge _ _ _ _) =>
    -- no handler intercepts `stuckNudge`; the message falls through to
    -- normal capture with the pending left in place
    normalCapture s msg
  | some .confirmIsAbout =>
    -- lines 1223-1241
    if isAffirmative (lowTrim msg) then { s with pending := none }
    else
      let meta :=
        if s.frameMeta.purpose = "write" && s.frameMeta.frameType = "causeEffect" then
          let ce := parseCauseEffectLeadsTo msg
          { s.frameMeta with causeEffect :=
              ⟨(ce.map (fun c => c.cause)).getD "", (ce.map (fun c => c.effect)).getD ""⟩ }
        else s.frameMeta
      { s with frame := { s.frame with isAbout := msg }, frameMeta := meta, pending := none }
  | some .confirmMainIdeas =>
    -- lines 1243-1250
    if isAffirmative (lowTrim msg) then { s with pending := none } else s
  | some .offerThirdMainIdea =>
    -- lines 1252-1260
    if isAffirmative (lowTrim msg) then { s with pending := some .collectThirdMainIdea }
    else { s with pending := some .confirmMainIdeas }
  | some .collectThirdMainIdea =>
    -- lines 1262-1271
    if !isNegative msg then
      let mainIdeas := s.frame.mainIdeas ++ [msg]
      let details := ensureIdxBucket s.frame.details (mainIdeas.length - 1)
      { s with frame := { s.frame with mainIdeas := mainIdeas, details := details },
               pending := some .confirmMainIdeas }
    else { s with pending := some .confirmMainIdeas }
  | some (.offerThirdDetail idx) =>
    -- lines 1273-1283
    if isAffirmative (lowTrim msg) then { s with pending := some (.collectThirdDetail idx) }
    else { s with pending := some (.confirmDetails idx) }
  | some (.collectThirdDetail idx) =>
    -- lines 1285-1291
    let details0 := ensureIdxBucket s.frame.details idx
    let details :=
      if !isNegative msg then jsSetBucket details0 idx ((details0.getD idx []) ++ [msg])
      else details0
    { s with frame := { s.frame with details := details },
             pending := some (.confirmDetails idx) }
  | some (.confirmDetails _) =>
    -- lines 1293-1300
    if isAffirmative (lowTrim msg) then { s with pending := none } else s
  | some .offerMoreSoWhat =>
    -- lines 1302-1310
    if isAffirmative (lowTrim msg) then { s with pending := some .collectMoreSoWhat }
    else { s with pending := some .confirmSoWhat }
  | some .collectMoreSoWhat =>
    -- lines 1312-1316
    let soWhat :=
      if !isNegative msg then cleanText (s.frame.soWhat ++ " " ++ msg) else s.frame.soWhat
    { s with frame := { s.frame with soWhat := soWhat }, pending := some .confirmSoWhat }
  | some .confirmSoWhat =>
    -- lines 1318-1334
    if isAffirmative (lowTrim msg) then
      let s1 := { s with pending := (none : Option Pending) }
      if isFrameComplete s1 && !s1.flags.exportOffered then
        { s1 with flags := { s1.flags with exportOffered := true },
                  pending := some .offerExport }
      else s1
    else { s with frame := { s.frame with soWhat := msg }, pending := none }
  | some .offerExport =>
    -- lines 1336-1344
    if isAffirmative (lowTrim msg) then { s with pending := some .chooseExportType }
    else { s with pending := none }
  | some .chooseExportType =>
    -- lines 1346-1357
    let normalized := lowTrim msg
    let choice :=
      if strIncludes normalized "both" then "both"
      else if strIncludes normalized "frame" then "frame"
      else if strIncludes normalized "transcript" then "transcript"
      else "both"
    { s with flags := { s.flags with exportChoice := some choice }, pending := none }

/-- `updateStateFromStudent` (tutor.js lines 994-1445): the single mutation
point — clean the message, ensure the detail buckets, then dispatch. -/
def updateStateFromStudent (state : TutorState) (message : String) : TutorState :=
  updateCore (ensureBucketsS state) (cleanText message)

/-! ## Safety classifier (`src/unnamed/part_002`, lines 14-38) -/

/-- The object returned by `classifyMessage`.  The `blocked` field models the
JS property of that name, which the tutor handler reads (`safety?.blocked`)
but which `classifyMessage` never sets: it is always `none` (JS `undefined`,
falsy). -/
structure SafetyVerdict where
  flagged : Bool
  severity : String
  flagCategory : String
  blocked : Option Bool
  deriving DecidableEq, Repr

/-- `classifyMessage` (part_002 lines 14-38): keyword scan over the lowered
message. -/
def classifyMessage (message : String) : SafetyVerdict :=
  let text := lowerStr message
  let selfHarmSignals := ["kill myself", "hurt myself", "end my life", "suicide"]
  if selfHarmSignals.any (fun p => strIncludes text p) then
    ⟨true, "A", "SELF_HARM", none⟩
  else
    let violenceSignals := ["bring a weapon", "shoot", "stab", "hurt someone",
      "kill him", "kill her"]
    if violenceSignals.any (fun p => strIncludes text p) then
      ⟨true, "A", "VIOLENCE", none⟩
    else
      let severeNegSignals := ["i'm worthless", "i am worthless", "i hate myself",
        "nothing matters", "i want to disappear"]
      if severeNegSignals.any (fun p => strIncludes text p) then
        ⟨true, "B", "SEVERE_NEGATIVE_SELF_TALK", none⟩
      else
        let bullyingSignals := ["you're stupid", "i hate you", "go die"]
        if bullyingSignals.any (fun p => strIncludes text p) then
          ⟨true, "B", "BULLYING", none⟩
        else ⟨false, "", "", none⟩

/-- Modelled from the spec: the fixed safe-redirect response table
(`lib/safetyResponses.js`) is imported by the handler but is not among the
provided sources.  The handler indexes it with an absent property
(`safety.category` is `undefined`), so only its `default` entry is ever
selected; the table is therefore modelled by a single fixed redirect
question. -/
def SAFETY_RESPONSES_default : String :=
  "Let’s pause here and reset. What is your Key Topic? (2–5 words)"

/-! ## Collaborator oracle (the external LLM calls) -/

/-- Parsed language-detection result (`{code, name, nativeName, dir}`). -/
structure LangInfo where
  code : String
  name : String
  nativeName : String
  dir : String
  deriving DecidableEq, Repr

/-- One turn's worth of collaborator responses: the language-detection result
(after the source's own JSON/confidence post-filters), the yes/no
classification, and the translation output (`none` models a thrown/failed
call). -/
structure Oracle where
  detect : Option LangInfo
  yn : String
  translate : Option String

/-- `detectLanguageViaLLM` (tutor.js lines 154-197): the deterministic
pre-checks of the source, with the LLM call itself supplied by the oracle. -/
def detectLanguageViaLLM (llm : Option LangInfo) (text : String) : Option LangInfo :=
  let input := cleanText text
  if input = "" then none
  else if input.length < LANG_DETECT_MIN_CHARS then none
  else
    let low := lowerStr input
    if isAffirmative low || isNegative low || low = "ok" || low = "okay"
        || low = "correct" then none
    else llm

/-- `classifyYesNoViaLLM` (tutor.js lines 200-222): empty input short-circuits
to `"unknown"`; the LLM's classification (already normalized to
`yes`/`no`/`unknown` by the source's output check) comes from the oracle. -/
def classifyYesNoViaLLM (yn : String) (text : String) : String :=
  let input := cleanText text
  if input = "" then "unknown"
  else if yn = "yes" || yn = "no" then yn
  else "unknown"

/-- `translateQuestionViaLLM` (tutor.js lines 224-248): enforce a single
question before and after; a failed call (`none`) or empty model output falls
back to the enforced input question. -/
def translateQuestionViaLLM (tr : Option String) (question targetLanguageName : String) :
    String :=
  let _ := targetLanguageName
  let q := enforceSingleQuestion question
  match tr with
  | some out => enforceSingleQuestion (if out = "" then q else out)
  | none => q

/-! ## Incoming state normalization (tutor.js lines 637-714) -/

/-- Raw `frame.details` as received from the caller: an array of buckets, an
object keyed by main-idea text, or anything else. -/
inductive RawDetails where
  | arr (buckets : List (Option (List String)))
  | obj (entries : List (String × List String))
  | other

/-- Raw `frame` sub-document (absent string properties are `""`). -/
structure RawFrame where
  keyTopic : String := ""
  isAbout : String := ""
  soWhat : String := ""
  mainIdeas : Option (List String) := none
  details : RawDetails := .other

/-- Raw `frameMeta.causeEffect`. -/
structure RawCE where
  cause : String := ""
  effect : String := ""

/-- Raw `frameMeta`. -/
structure RawMeta where
  purpose : String := ""
  frameType : String := ""
  causeEffect : Option RawCE := none

/-- Raw `settings`. -/
structure RawSettings where
  language : String := ""
  languageName : String := ""
  languageNativeName : String := ""
  dir : String := ""
  languageLocked : Bool := false

/-- Raw transcript turn. -/
structure RawTurn where
  role : String := ""
  text : String := ""

/-- Raw `flags`. -/
structure RawFlags where
  exportOffered : Bool := false
  exportChoice : Option String := none

/-- The raw state document sent by the caller, shallowly typed: `none` models
a missing or wrongly-typed sub-document.  Pending payloads are taken
well-formed (see `Pending`); `skips` entries keep their `stage` strings. -/
structure RawState where
  frame : Option RawFrame := none
  keyTopic : String := ""
  isAbout : String := ""
  soWhat : String := ""
  frameMeta : Option RawMeta := none
  pending : Option Pending := none
  settings : Option RawSettings := none
  transcript : Option (List RawTurn) := none
  exports : Option Exported := none
  flags : Option RawFlags := none
  skips : Option (List String) := none

/-- `normalizeIncomingState` (tutor.js lines 637-714): defensive, field-by-
field reconstruction of a valid state from whatever the caller sent. -/
def normalizeIncomingState (raw : RawState) : TutorState :=
  let fr := raw.frame.getD {}
  let keyTopic := cleanText (if fr.keyTopic ≠ "" then fr.keyTopic else raw.keyTopic)
  let isAbout := cleanText (if fr.isAbout ≠ "" then fr.isAbout else raw.isAbout)
  let mainIdeas :=
    match fr.mainIdeas with
    | some l => (l.map cleanText).filter (fun x => x ≠ "")
    | none => []
  let details0 :=
    match fr.details with
    | .arr buckets => buckets.map (fun b =>
        match b with
        | some x => (x.map cleanText).filter (fun y => y ≠ "")
        | none => [])
    | .obj entries => mainIdeas.map (fun mi =>
        match entries.lookup mi with
        | some b => (b.map cleanText).filter (fun y => y ≠ "")
        | none => [])
    | .other => []
  let soWhat := cleanText (if fr.soWhat ≠ "" then fr.soWhat else raw.soWhat)
  let fm := raw.frameMeta.getD {}
  let ce := fm.causeEffect.getD {}
  let st := raw.settings.getD {}
  let language :=
    let v := cleanText (if st.language = "" then "en" else st.language)
    if v = "" then "en" else v
  let languageName :=
    let v := cleanText (if st.languageName = "" then "English" else st.languageName)
    if v = "" then "English" else v
  let languageNativeName :=
    let v := cleanText (if st.languageNativeName = "" then "English" else st.languageNativeName)
    if v = "" then languageName else v
  { frameMeta :=
      { purpose := cleanText fm.purpose
        frameType := cleanText fm.frameType
        causeEffect := ⟨cleanText ce.cause, cleanText ce.effect⟩ }
    frame :=
      { keyTopic := keyTopic
        isAbout := isAbout
        mainIdeas := mainIdeas
        details := padBuckets details0 mainIdeas.length
        soWhat := soWhat }
    pending := raw.pending
    settings :=
      { language := language
        languageName := languageName
        languageNativeName := languageNativeName
        dir := if st.dir = "rtl" then "rtl" else "ltr"
        languageLocked := st.languageLocked }
    transcript :=
      match raw.transcript with
      | some ts =>
        lastN ((ts.map (fun t => Turn.mk (cleanText t.role) (cleanText t.text))).filter
          (fun t => t.role ≠ "" && t.text ≠ "")) TRANSCRIPT_MAX_TURNS
      | none => []
    exports := raw.exports
    flags :=
      match raw.flags with
      | some f =>
        ⟨f.exportOffered,
         match f.exportChoice with
         | some c => if c = "" then none else some c
         | none => none⟩
      | none => ⟨false, none⟩
    skips :=
      match raw.skips with
      | some l => (l.map cleanText).filter (fun x => x ≠ "")
      | none => [] }

/-! ## Per-turn handler (tutor.js lines 1450-1600) -/

/-- The `{reply, state}` JSON body of a successful turn. -/
structure HandlerResult where
  reply : String
  state : TutorState
  deriving Repr

/-- Is the pending a `confirmLanguageSwitch`? -/
def isCLSPending : Option Pending → Bool
  | some (.confirmLanguageSwitch _ _ _ _) => true
  | _ => false

/-- The "protected" pending types the stuck detector must not interrupt
(tutor.js lines 1528-1535). -/
def inProtectedPending : Option Pending → Bool
  | some (.confirmLanguageSwitch _ _ _ _) => true
  | some (.stuckConfirm _ _ _ _) => true
  | some (.stuckMenu _ _ _ _) => true
  | some (.stuckReask _ _) => true
  | some (.stuckMini _ _ _) => true
  | some (.stuckSkip _ _ _) => true
  | _ => false

/-- The export attachment at the end of a turn (tutor.js lines 1558-1565 and
1583-1590): attach the bundle iff the frame is complete and no pending is
active, otherwise reset `exports` to `null`. -/
def attachExports (st : TutorState) : TutorState :=
  if isFrameComplete st && st.pending = none then
    { st with exports := some ⟨buildFrameText st, buildTranscriptText st, buildExportHtml st⟩ }
  else { st with exports := none }

/-- The common tail of the handler (tutor.js lines 1573-1592): route the
question, translate when locked to a non-English language, log the turns,
attach or reset exports. -/
def handlerFinish (o : Oracle) (message : String) (state : TutorState) : HandlerResult :=
  let reply0 := enforceSingleQuestion (computeNextQuestion state)
  let reply :=
    if state.settings.languageLocked && state.settings.language ≠ "en" then
      translateQuestionViaLLM o.translate reply0
        (if state.settings.languageName = "" then "the target language"
         else state.settings.languageName)
    else reply0
  let st := if message ≠ "" then appendTurn state "Student" message else state
  let st := appendTurn st "Kaw" reply
  ⟨reply, attachExports st⟩

/-- The post-detection part of the handler (tutor.js lines 1498-1592):
`confirmLanguageSwitch` handling, the stuck-detector interrupt, the turn
update, and the common tail. -/
def handlerMain (o : Oracle) (message : String) (state0 : TutorState) : HandlerResult :=
  if isCLSPending state0.pending && message ≠ "" then
    let low := lowTrim message
    if !isAffirmative low && !isNegative low then
      let yn := classifyYesNoViaLLM o.yn message
      if yn = "yes" then handlerFinish o message (updateStateFromStudent state0 "yes")
      else if yn = "no" then handlerFinish o message (updateStateFromStudent state0 "no")
      else
        -- lines 1508-1519: re-ask the language-switch question and return
        let reply0 := enforceSingleQuestion (computeNextQuestion state0)
        let candName :=
          match state0.pending with
          | some (.confirmLanguageSwitch _ cn _ _) => if cn = "" then "English" else cn
          | _ => "English"
        let candCode :=
          match state0.pending with
          | some (.confirmLanguageSwitch cc _ _ _) => cc
          | _ => ""
        let reply :=
          if candCode ≠ "en" then translateQuestionViaLLM o.translate reply0 candName
          else reply0
        let st := appendTurn (appendTurn state0 "Student" message) "Kaw" reply
        ⟨reply, st⟩
    else handlerFinish o message (updateStateFromStudent state0 message)
  else if message ≠ "" then
    if !inProtectedPending state0.pending && isStuckMessage message then
      -- stuck interrupt, lines 1537-1567
      let stage := getStage state0
      let resumeQuestion := enforceSingleQuestion (computeNextQuestion state0)
      let state := { state0 with pending := some (.stuckConfirm (some stage)
        (detectStuckTone message) resumeQuestion (buildMiniQuestion state0)) }
      let reply0 := enforceSingleQuestion (computeNextQuestion state)
      let reply :=
        if state.settings.languageLocked && state.settings.language ≠ "en" then
          translateQuestionViaLLM o.translate reply0
            (if state.settings.languageName = "" then "the target language"
             else state.settings.languageName)
        else reply0
      let st := appendTurn (appendTurn state "Student" message) "Kaw" reply
      ⟨reply, attachExports st⟩
    else handlerFinish o message (updateStateFromStudent state0 message)
  else handlerFinish o message state0

/-- The language-detection step of the handler (tutor.js lines 1477-1496):
when a non-English language is detected on an unlocked session, enter
`confirmLanguageSwitch` and return; otherwise continue with the main flow. -/
def handlerDetect (o : Oracle) (message : String) (state : TutorState) : HandlerResult :=
  let detected :=
    if message ≠ "" && !state.settings.languageLocked && !isCLSPending state.pending then
      detectLanguageViaLLM o.detect message
    else none
  match detected with
  | some d =>
    if d.code ≠ "" && d.code ≠ "en" then
      let state := { state with
        pending := some (.confirmLanguageSwitch d.code d.name d.nativeName d.dir) }
      let reply := enforceSingleQuestion (computeNextQuestion state)
      let st := appendTurn (appendTurn state "Student" message) "Kaw" reply
      ⟨reply, st⟩
    else handlerMain o message state
  | none => handlerMain o message state

/-- `handler` (tutor.js lines 1450-1600) for a well-formed POST turn: clean
the message, normalize the state, run the (dead, see `classifyMessage`)
safety short-circuit, the language-detection prompt, and the main flow. -/
def handler (o : Oracle) (messageRaw : String) (raw : RawState) : HandlerResult :=
  let message := cleanText messageRaw
  let state := normalizeIncomingState raw
  if message ≠ "" && ((classifyMessage message).blocked.getD false) then
    -- lines 1463-1474; `SAFETY_RESPONSES[safety.category]` indexes with an
    -- absent property and falls back to `SAFETY_RESPONSES.default`.
    let reply := enforceSingleQuestion SAFETY_RESPONSES_default
    let st := appendTurn (appendTurn state "Student" message) "Kaw" reply
    ⟨reply, st⟩
  else handlerDetect o message state

/-! ## Question-mark counting lemmas -/

/-- Number of question marks in a string. -/
def countQuestionMarks (s : String) : Nat := s.data.count '?'

theorem count_dropWhile_of_pred_ne {p : Char → Bool} {c : Char}
    (h : ∀ a, p a = true → a ≠ c) :
    ∀ l : List Char, (l.dropWhile p).count c = l.count c := by
  intro l
  induction l with
  | nil => rfl
  | cons a t ih =>
    rw [List.dropWhile_cons]
    by_cases hpa : p a = true
    · have hne := h a hpa
      rw [if_pos hpa, ih]
      simp [List.count_cons, hne, Ne.symm hne]
    · rw [if_neg hpa]

theorem count_jsTrimList_q (l : List Char) :
    (jsTrimList l).count '?' = l.count '?' := by
  have hws : ∀ a, jsWs a = true → a ≠ '?' := by
    intro a ha
    rintro rfl
    revert ha
    decide
  unfold jsTrimList
  rw [List.count_reverse, count_dropWhile_of_pred_ne hws, List.count_reverse,
    count_dropWhile_of_pred_ne hws]

theorem idxOfChar_none_iff (l : List Char) (c : Char) :
    idxOfChar l c = none ↔ l.count c = 0 := by
  induction l with
  | nil => simp [idxOfChar]
  | cons a t ih =>
    by_cases hac : a = c
    · simp [idxOfChar, hac]
    · simp [idxOfChar, hac, ih, Ne.symm hac]

theorem lastIdxOfChar_none_iff (l : List Char) (c : Char) :
    lastIdxOfChar l c = none ↔ l.count c = 0 := by
  induction l with
  | nil => simp [lastIdxOfChar]
  | cons a t ih =>
    by_cases hac : a = c
    · subst hac
      rcases ht : lastIdxOfChar t a with _ | i <;> simp [lastIdxOfChar, ht]
    · rcases ht : lastIdxOfChar t c with _ | i <;>
        simp [lastIdxOfChar, ht, hac, Ne.symm hac, ← ih]

theorem count_take_idxOfChar {l : List Char} {c : Char} {f : Nat}
    (h : idxOfChar l c = some f) : (l.take (f + 1)).count c = 1 := by
  induction l generalizing f with
  | nil => simp [idxOfChar] at h
  | cons a t ih =>
    by_cases hac : a = c
    · subst hac
      simp [idxOfChar] at h
      subst h
      simp [List.take_succ_cons, List.count_cons]
    · simp [idxOfChar, hac] at h
      rcases h with ⟨f', hf', rfl⟩
      rw [List.take_succ_cons]
      simp [List.count_cons, ih hf', hac, Ne.symm hac]

theorem count_one_of_first_eq_last {l : List Char} {c : Char} {f : Nat}
    (h1 : idxOfChar l c = some f) (h2 : lastIdxOfChar l c = some f) :
    l.count c = 1 := by
  induction l generalizing f with
  | nil => simp [idxOfChar] at h1
  | cons a t ih =>
    by_cases hac : a = c
    · subst hac
      simp [idxOfChar] at h1
      subst h1
      rcases ht : lastIdxOfChar t a with _ | i
      · have : t.count a = 0 := (lastIdxOfChar_none_iff t a).mp ht
        simp [List.count_cons, this]
      · rw [lastIdxOfChar] at h2
        simp [ht] at h2
    · simp [idxOfChar, hac] at h1
      rcases h1 with ⟨f', hf', rfl⟩
      rw [lastIdxOfChar] at h2
      rcases ht : lastIdxOfChar t c with _ | i
      · simp [ht, hac] at h2
      · simp [ht] at h2
        subst h2
        simp [List.count_cons, ih hf' ht, hac, Ne.symm hac]

theorem hasSub_singleton_iff (l : List Char) (c : Char) :
    hasSub l [c] = true ↔ c ∈ l := by
  induction l with
  | nil => simp [hasSub]
  | cons a t ih =>
    rw [hasSub]
    constructor
    · intro h
      rcases Bool.or_eq_true_iff.mp h with h | h
      · have : c = a := by
          simpa [List.isPrefixOf] using h
        simp [this]
      · exact List.mem_cons_of_mem _ (ih.mp h)
    · intro h
      rcases List.mem_cons.mp h with h | h
      · subst h
        simp [List.isPrefixOf]
      · exact Bool.or_eq_true_iff.mpr (Or.inr (ih.mpr h))

theorem count_stripTrailingPunct_zero {l : List Char}
    (h : l.count '?' = 0) : (stripTrailingPunct l).count '?' = 0 := by
  have hsub : (l.reverse.dropWhile (fun c => c = '.' || c = '!' || jsWs c)).Sublist
      l.reverse := List.dropWhile_sublist _
  have := hsub.count_le '?'
  rw [List.count_reverse] at this
  unfold stripTrailingPunct
  rw [List.count_reverse]
  omega

/-- Every output of `enforceSingleQuestion` contains exactly one question
mark: truncation keeps only the first; absence appends one; emptiness yields
the fixed fallback question. -/
theorem count_enforceSingleQuestion (t : String) :
    countQuestionMarks (enforceSingleQuestion t) = 1 := by
  unfold countQuestionMarks enforceSingleQuestion
  by_cases h0 : jsTrimList t.data = []
  · simp only [h0, if_pos rfl]
    decide
  · rw [if_neg h0]
    rcases hf : idxOfChar (jsTrimList t.data) '?' with _ | f
    · have hc : (jsTrimList t.data).count '?' = 0 := (idxOfChar_none_iff _ _).mp hf
      have hl : lastIdxOfChar (jsTrimList t.data) '?' = none :=
        (lastIdxOfChar_none_iff _ _).mpr hc
      have hmem : ¬ '?' ∈ jsTrimList t.data := by
        intro hm
        have := List.count_pos_iff.mpr hm
        omega
      have hhs : hasSub (jsTrimList t.data) ['?'] = false := by
        rcases hb : hasSub (jsTrimList t.data) ['?'] with _ | _
        · rfl
        · exact absurd ((hasSub_singleton_iff _ _).mp hb) hmem
      simp only [hf, hl, hhs, Bool.not_false, if_pos rfl]
      show (stripTrailingPunct (jsTrimList t.data) ++ ['?']).count '?' = 1
      rw [List.count_append, count_stripTrailingPunct_zero hc]
      simp
    · rcases hg : lastIdxOfChar (jsTrimList t.data) '?' with _ | g
      · exfalso
        have hc : (jsTrimList t.data).count '?' = 0 := (lastIdxOfChar_none_iff _ _).mp hg
        have : idxOfChar (jsTrimList t.data) '?' = none := (idxOfChar_none_iff _ _).mpr hc
        rw [hf] at this
        exact Option.noConfusion this
      · simp only [hf, hg]
        by_cases hfg : g ≠ f
        · rw [if_pos hfg]
          have hcnt : (jsTrimList ((jsTrimList t.data).take (f + 1))).count '?' = 1 := by
            rw [count_jsTrimList_q]
            exact count_take_idxOfChar hf
          have hmem : '?' ∈ jsTrimList ((jsTrimList t.data).take (f + 1)) :=
            List.count_pos_iff.mp (by omega)
          have hhs : hasSub (jsTrimList ((jsTrimList t.data).take (f + 1))) ['?'] = true :=
            (hasSub_singleton_iff _ _).mpr hmem
          simp only [hhs, Bool.not_true, Bool.false_eq_true, if_false]
          exact hcnt
        · rw [if_neg hfg]
          push_neg at hfg
          subst hfg
          have hcnt : (jsTrimList t.data).count '?' = 1 := count_one_of_first_eq_last hf hg
          have hmem : '?' ∈ jsTrimList t.data := List.count_pos_iff.mp (by omega)
          have hhs : hasSub (jsTrimList t.data) ['?'] = true :=
            (hasSub_singleton_iff _ _).mpr hmem
          simp only [hhs, Bool.not_true, Bool.false_eq_true, if_false]
          exact hcnt

/-! ## Concrete fixtures used by the claim theorems -/

/-- A collaborator oracle whose language detector finds nothing, whose yes/no
classifier answers `"unknown"` and whose translator fails (all legitimate
collaborator outcomes, under which the handler is fully deterministic). -/
def noopOracle : Oracle := ⟨none, "unknown", none⟩

/-- A state sitting in the `offerThirdDetail` confirmation for a very long
first main idea (as captured verbatim from a learner message). -/
def longIdeaState : TutorState :=
  { defaultState with
    frame := ⟨"kt kt", "ia", [⟨List.replicate 460 'a'⟩, "bb cc"], [[], []], ""⟩,
    pending := some (.offerThirdDetail 0) }

/-! ## C1 -/

/-- C1 (corrected): for every Frame+Pending state the per-turn reply
`enforceSingleQuestion (computeNextQuestion s)` contains exactly one `?`.
(The original claim's two further conjuncts — the reply ends in `?` and is at
most 420 characters — are refuted by `C1_counterexample`; this consolidated
router variant has no character cap and deliberately keeps guidance such as
"(yes/no)" after the question mark.) -/
theorem C1_single_question_amended (s : TutorState) :
    countQuestionMarks (enforceSingleQuestion (computeNextQuestion s)) = 1 :=
  count_enforceSingleQuestion (computeNextQuestion s)

/-- C1 counterexample: on a reachable `offerThirdDetail` state whose first
main idea is 460 characters long, the reply has exactly one `?` but does not
end with it (it ends in `(yes/no)`) and is 531 > 420 characters long, so the
claim as stated is false. -/
theorem C1_counterexample :
    ¬ (countQuestionMarks (enforceSingleQuestion (computeNextQuestion longIdeaState)) = 1
        ∧ (enforceSingleQuestion (computeNextQuestion longIdeaState)).data.getLast? = some '?'
        ∧ (enforceSingleQuestion (computeNextQuestion longIdeaState)).length ≤ 420) := by
  intro h
  exact absurd h.2.2 (by decide)

/-! ## C2 -/

/-- C2 (code_bug): `classifyMessage` flags `"i want to kill myself"`
(category `SELF_HARM`) and never sets a `blocked` property, while the handler
gates its safety short-circuit on `safety?.blocked` — so the short-circuit is
dead code: the turn runs the router and the turn update as usual, the reply
is the ordinary purpose question, and the flagged message is even captured
into `frame.keyTopic`. -/
theorem C2_safety_short_circuit_dead :
    (classifyMessage "i want to kill myself").flagged = true
      ∧ (classifyMessage "i want to kill myself").blocked = none
      ∧ (handler noopOracle "i want to kill myself" {}).reply =
          "How will you use this Frame: studying/review, writing/creating, or create notes from a reading or source? (study/write/read)"
      ∧ (handler noopOracle "i want to kill myself" {}).state.frame.keyTopic =
          "i want to kill myself" := by
  refine ⟨rfl, rfl, ?_, ?_⟩ <;> decide

/-! ## C7 -/

/-- C7 (corrected): on the freshly created default Frame the message `"no"`
leaves the Frame unchanged, but the emitted reply is the opening *purpose*
question, not the Key Topic question — this consolidated variant asks for the
purpose and frame type before the Key Topic. -/
theorem C7_opening_question_amended (o : Oracle) :
    (handler o "no" {}).reply =
        "How will you use this Frame: studying/review, writing/creating, or create notes from a reading or source? (study/write/read)"
      ∧ (handler o "no" {}).state.frame = defaultState.frame
      ∧ (handler o "no" {}).state.pending = none := by
  refine ⟨rfl, rfl, rfl⟩

/-- C7 counterexample: the reply to `"no"` on the empty default Frame is not
the Key Topic question. -/
theorem C7_counterexample :
    ¬ ((handler noopOracle "no" {}).reply = "What is your Key Topic? (2–5 words)"
        ∧ (handler noopOracle "no" {}).state.frame = defaultState.frame) := by
  intro h
  exact absurd h.1 (by decide)

/-! ## C3 -/

/-- A state whose key topic and is-about slots are empty, whose pending is
clear, whose purpose is chosen but whose frame type is not yet chosen. -/
def purposeOnlyState : TutorState :=
  { defaultState with frameMeta := ⟨"study", "", ⟨"", ""⟩⟩ }

/-- C3 counterexample: with both slots empty and no pending, but the frame
type not yet selected, the message `"The Dust Bowl is about how drought leads
to migration"` (which the extractor accepts) is consumed by the frame-type
selection (it contains `"how"`), so neither slot is filled and no
`confirmIsAbout` pending is entered — the claim as stated is false. -/
theorem C3_counterexample :
    parseKeyTopicIsAbout "The Dust Bowl is about how drought leads to migration" =
        some ⟨"The Dust Bowl", "how drought leads to migration"⟩
      ∧ purposeOnlyState.frame.keyTopic = "" ∧ purposeOnlyState.frame.isAbout = ""
      ∧ purposeOnlyState.pending = none
      ∧ (updateStateFromStudent purposeOnlyState
          "The Dust Bowl is about how drought leads to migration").frame.keyTopic = ""
      ∧ (updateStateFromStudent purposeOnlyState
          "The Dust Bowl is about how drought leads to migration").pending = none := by
  refine ⟨by decide, rfl, rfl, rfl, by decide, by decide⟩

/-- C3 (corrected): the one-call extraction holds once the purpose and frame
type are already set — for every such state with both slots empty and no
pending, a whitespace-normal message the extractor accepts fills both slots,
enters `confirmIsAbout`, and the next question is the confirmation question,
not a re-ask of either slot. -/
theorem C3_extraction_amended (s : TutorState) (msg x y : String)
    (hkt : s.frame.keyTopic = "") (hia : s.frame.isAbout = "")
    (hpend : s.pending = none)
    (hpurpose : s.frameMeta.purpose ≠ "") (hft : s.frameMeta.frameType ≠ "")
    (hmsg : cleanText msg = msg)
    (hparse : parseKeyTopicIsAbout msg = some ⟨x, y⟩) :
    (updateStateFromStudent s msg).frame.keyTopic = x
      ∧ (updateStateFromStudent s msg).frame.isAbout = y
      ∧ (updateStateFromStudent s msg).pending = some Pending.confirmIsAbout
      ∧ computeNextQuestion (updateStateFromStudent s msg) =
          "\"" ++ x ++ "\" is about \"" ++ y
            ++ "\". Is that correct, or would you like to revise it?" := by
  have hpend' : (ensureBucketsS s).pending = none := hpend
  have hpurpose' : ¬ (ensureBucketsS s).frameMeta.purpose = "" := hpurpose
  have hft' : ¬ (ensureBucketsS s).frameMeta.frameType = "" := hft
  have hkt' : (ensureBucketsS s).frame.keyTopic = "" := hkt
  have hia' : (ensureBucketsS s).frame.isAbout = "" := hia
  have hred : updateStateFromStudent s msg = normalCapture (ensureBucketsS s) msg := by
    unfold updateStateFromStudent
    rw [hmsg]
    unfold updateCore
    rw [hpend']
    rw [if_neg hpurpose', if_neg hft']
  have hcap : (normalCapture (ensureBucketsS s) msg).frame.keyTopic = x
      ∧ (normalCapture (ensureBucketsS s) msg).frame.isAbout = y
      ∧ (normalCapture (ensureBucketsS s) msg).pending = some Pending.confirmIsAbout := by
    unfold normalCapture
    rw [hparse]
    simp [hkt', hia']
  rw [hred]
  refine ⟨hcap.1, hcap.2.1, hcap.2.2, ?_⟩
  unfold computeNextQuestion
  rw [hcap.2.2, hcap.1, hcap.2.1]

/-! ## C4 -/

/-- The separator `" is about "` has no period among 1..8: its length-`(10-k)`
prefix never equals the suffix dropped by `k`. -/
theorem sep_no_period : ∀ k, k < 9 → 1 ≤ k →
    List.take (10 - k) " is about ".data ≠ List.drop k " is about ".data := by
  decide

theorem prefix_of_append_left {p x y : List Char} (h : p <+: x ++ y)
    (hl : p.length ≤ x.length) : p <+: x := by
  rw [List.prefix_iff_eq_take] at h
  rw [List.take_append_eq_append_take, show p.length - x.length = 0 by omega] at h
  simp only [List.take_zero, List.append_nil] at h
  rw [List.prefix_iff_eq_take]
  exact h

/-- When the haystack is `A ++ " is about " ++ B` and `A` does not contain
`" is about"` (note: no trailing space, which also excludes the straddling
case of an `A` ending in `" is about"`), the first occurrence of the
separator is exactly at index `A.length`. -/
theorem idxOfSub_append_isAbout (A B : List Char)
    (h : ¬ (" is about".data <:+: A)) :
    idxOfSub (A ++ (" is about ".data ++ B)) " is about ".data = some A.length := by
  induction A with
  | nil =>
    have hpre : " is about ".data.isPrefixOf (" is about ".data ++ B) = true :=
      List.isPrefixOf_iff_prefix.mpr (List.prefix_append _ _)
    simp [idxOfSub, hpre]
  | cons a A ih =>
    have hsubA : ¬ (" is about".data <:+: A) := fun hi =>
      h (List.infix_cons_iff.mpr (Or.inr hi))
    have hnp : " is about ".data.isPrefixOf (a :: A ++ (" is about ".data ++ B)) = false := by
      rw [Bool.eq_false_iff]
      intro hp
      have hp' : " is about ".data <+: (a :: A) ++ (" is about ".data ++ B) :=
        List.isPrefixOf_iff_prefix.mp hp
      rcases le_or_lt 9 (a :: A).length with hk | hk
      · have hsp : " is about".data <+: " is about ".data := ⟨[' '], by decide⟩
        have : " is about".data <+: (a :: A) :=
          prefix_of_append_left (hsp.trans hp') (by simpa using hk)
        exact h this.isInfix
      · have h1 : 1 ≤ (a :: A).length := by simp
        have h10 : (" is about ".data).length = 10 := by decide
        have hp2 : " is about ".data =
            (a :: A) ++ List.take (10 - (a :: A).length) " is about ".data := by
          have hpt := List.prefix_iff_eq_take.mp hp'
          rw [h10] at hpt
          rw [List.take_append_eq_append_take,
            List.take_of_length_le (by omega : (a :: A).length ≤ 10),
            List.take_append_eq_append_take,
            show 10 - (a :: A).length - (" is about ".data).length = 0 by rw [h10]; omega,
            List.take_zero, List.append_nil] at hpt
          exact hpt
        have hsplit : List.take (a :: A).length " is about ".data
            ++ List.drop (a :: A).length " is about ".data =
            (a :: A) ++ List.take (10 - (a :: A).length) " is about ".data := by
          rw [List.take_append_drop]
          exact hp2
        have hlen : (List.take (a :: A).length " is about ".data).length =
            (a :: A).length := by
          rw [List.length_take, h10]
          omega
        have hpair := List.append_inj hsplit hlen
        exact sep_no_period (a :: A).length hk h1 hpair.2.symm
    show idxOfSub (a :: (A ++ (" is about ".data ++ B))) " is about ".data =
      some (A.length + 1)
    have hnp' : ([' ', 'i', 's', ' ', 'a', 'b', 'o', 'u', 't', ' '].isPrefixOf
        (a :: (A ++ ([' ', 'i', 's', ' ', 'a', 'b', 'o', 'u', 't', ' '] ++ B)))) = false := hnp
    rw [idxOfSub, hnp']
    simp only [Bool.false_eq_true, if_false]
    rw [ih hsubA]
    rfl

/-- C4 counterexample: the one-word label `"Photosynthesis"` lies inside the
claimed 1-10 word range, is not on the generic blocklist, and does not start
with `"my "`, yet extraction rejects the message — the accepted range is 2-5
words, not 1-10. -/
theorem C4_counterexample :
    parseKeyTopicIsAbout "Photosynthesis is about energy transfer" = none
      ∧ isBadKeyTopic "Photosynthesis" = false
      ∧ wordCount "Photosynthesis" = 1 := by
  refine ⟨by decide, by decide, by decide⟩

/-- C4 (corrected): for every whitespace-normal message `L ++ " is about " ++ R`
whose label `L` is nonempty, not generic, and does not itself contain the
phrase `" is about"`, and whose right-hand side `R` is nonempty, extraction
succeeds exactly when `L` has 2 to 5 words (the spec's 1-10 word range is
wrong on both ends). -/
theorem C4_label_range_amended (L R : String)
    (hcleanL : cleanText L = L) (hcleanR : cleanText R = R)
    (hL : L ≠ "") (hR : R ≠ "")
    (hcleanAll : cleanText (L ++ " is about " ++ R) = L ++ " is about " ++ R)
    (hnosub : ¬ (" is about".data <:+: lowerList L.data))
    (hgood : isBadKeyTopic L = false) :
    parseKeyTopicIsAbout (L ++ " is about " ++ R) =
      if 2 ≤ wordCount L ∧ wordCount L ≤ 5 then some ⟨L, R⟩ else none := by
  have hdata : (L ++ " is about " ++ R).data = L.data ++ (" is about ".data ++ R.data) := by
    rw [String.data_append, String.data_append, List.append_assoc]
  have hlow : lowerList (L ++ " is about " ++ R).data =
      lowerList L.data ++ (" is about ".data ++ lowerList R.data) := by
    rw [hdata]
    unfold lowerList
    rw [List.map_append, List.map_append,
      show List.map lowerChar " is about ".data = " is about ".data by decide]
  have hidx : idxOfSub (lowerList (L ++ " is about " ++ R).data) " is about ".data =
      some L.data.length := by
    rw [hlow, idxOfSub_append_isAbout (lowerList L.data) (lowerList R.data) hnosub]
    simp [lowerList]
  have htake : List.take L.data.length (L ++ " is about " ++ R).data = L.data := by
    rw [hdata, List.take_left]
  have hdrop : List.drop (L.data.length + " is about ".length)
      (L ++ " is about " ++ R).data = R.data := by
    rw [hdata, ← List.append_assoc]
    have hlen : (L.data ++ " is about ".data).length = L.data.length + " is about ".length := by
      rw [List.length_append]
      rfl
    rw [← hlen, List.drop_left]
  have hktStr : (⟨L.data⟩ : String) = L := rfl
  have hiaStr : (⟨R.data⟩ : String) = R := rfl
  simp only [parseKeyTopicIsAbout]
  rw [hcleanAll, hidx]
  simp only [htake, hdrop, hktStr, hiaStr, hcleanL, hcleanR]
  rw [decide_eq_false hL, decide_eq_false hR]
  simp only [Bool.or_self, Bool.false_eq_true, if_false, hgood]
  by_cases hw : 2 ≤ wordCount L ∧ wordCount L ≤ 5
  · rw [if_pos hw, decide_eq_false (by omega : ¬ wordCount L < 2),
      decide_eq_false (by omega : ¬ wordCount L > 5)]
    simp
  · rw [if_neg hw]
    rcases Nat.lt_or_ge (wordCount L) 2 with hlt | hge
    · rw [decide_eq_true hlt]
      simp
    · have hgt : wordCount L > 5 := by omega
      rw [decide_eq_true hgt]
      simp

/-- C4 witness: the amended theorem applied to the two-word label
`"solar storms"`. -/
theorem C4_witness :
    parseKeyTopicIsAbout ("solar storms" ++ " is about " ++ "charged particles") =
      (if 2 ≤ wordCount "solar storms" ∧ wordCount "solar storms" ≤ 5
       then some ⟨"solar storms", "charged particles"⟩ else none) :=
  C4_label_range_amended "solar storms" "charged particles" (by decide) (by decide)
    (by decide) (by decide) (by decide) (by decide) (by decide)

/-! ## C5 -/

/-- Normal capture never overwrites a non-empty key topic: every write to
`keyTopic` in the capture chain is guarded by `!s.frame.keyTopic`. -/
theorem normalCapture_keyTopic (s : TutorState) (msg : String)
    (h : s.frame.keyTopic ≠ "") :
    (normalCapture s msg).frame.keyTopic = s.frame.keyTopic := by
  unfold normalCapture
  rcases hp : parseKeyTopicIsAbout msg with _ | p <;> simp only [hp]
  · rw [if_neg h]
    rcases hfib : firstIncompleteBucket s.frame.mainIdeas s.frame.details with _ | i <;>
      simp only [hfib] <;> split_ifs <;> rfl
  · simp [h]

/-- No branch of the dispatch overwrites a non-empty key topic. -/
theorem updateCore_keyTopic (t : TutorState) (m : String)
    (h : t.frame.keyTopic ≠ "") :
    (updateCore t m).frame.keyTopic = t.frame.keyTopic := by
  unfold updateCore
  rcases hp : t.pending with _ | p
  · simp only []
    by_cases h1 : t.frameMeta.purpose = ""
    · rw [if_pos h1]
      rcases hnp : normalizePurpose m with _ | p'
      · exact normalCapture_keyTopic t m h
      · rfl
    · rw [if_neg h1]
      by_cases h2 : t.frameMeta.frameType = ""
      · rw [if_pos h2]
        split_ifs
        · rfl
        · exact normalCapture_keyTopic t m h
      · rw [if_neg h2]
        exact normalCapture_keyTopic t m h
  · cases p with
    | confirmLanguageSwitch cc cn cnn cd =>
      simp only []
      split_ifs <;> rfl
    | stuckConfirm st tn rq mq =>
      simp only []
      split_ifs <;> rfl
    | stuckMenu st tn rq mq =>
      simp only []
      rcases hc : normalizeStuckChoice m with _ | c
      · rfl
      · simp only []
        split_ifs <;> rfl
    | stuckReask mode rq =>
      exact normalCapture_keyTopic _ m h
    | stuckNudge st tn nt rq =>
      exact normalCapture_keyTopic _ m h
    | stuckMini st mq rq =>
      simp only []
      rcases hst : st.getD (getStage t) with _ | _ | _ | _ | _ | i | _ | _
      · rcases hnp : normalizePurpose m with _ | p' <;> rfl
      · simp only []
        split_ifs <;> rfl
      · simp [h]
      · simp only []
        split_ifs <;> rfl
      · simp only []
        split_ifs <;> rfl
      · simp only []
        split_ifs <;> rfl
      · simp only []
        split_ifs <;> rfl
      · rfl
    | stuckSkip st rq mq =>
      simp only []
      split_ifs <;> rfl
    | confirmIsAbout =>
      simp only []
      split_ifs <;> rfl
    | confirmMainIdeas =>
      simp only []
      split_ifs <;> rfl
    | offerThirdMainIdea =>
      simp only []
      split_ifs <;> rfl
    | collectThirdMainIdea =>
      simp only []
      split_ifs <;> rfl
    | offerThirdDetail i =>
      simp only []
      split_ifs <;> rfl
    | collectThirdDetail i =>
      simp only []
    | confirmDetails i =>
      simp only []
      split_ifs <;> rfl
    | offerMoreSoWhat =>
      simp only []
      split_ifs <;> rfl
    | collectMoreSoWhat =>
      simp only []
    | confirmSoWhat =>
      simp only []
      split_ifs <;> rfl
    | offerExport =>
      simp only []
      split_ifs <;> rfl
    | chooseExportType =>
      simp only []

/-- C5 (confirmed): once `keyTopic` and `isAbout` are both non-empty and the
`confirmIsAbout` pending is cleared, no turn update changes `keyTopic` — and
indeed this variant has no revision flow for the key topic at all. -/
theorem C5_topic_lock (s : TutorState) (msg : String)
    (hkt : s.frame.keyTopic ≠ "") (_hia : s.frame.isAbout ≠ "")
    (_hpend : s.pending ≠ some Pending.confirmIsAbout) :
    (updateStateFromStudent s msg).frame.keyTopic = s.frame.keyTopic := by
  unfold updateStateFromStudent
  exact updateCore_keyTopic (ensureBucketsS s) (cleanText msg) hkt

/-- A state with both the key topic and the is-about statement filled and no
pending confirmation. -/
def lockedState : TutorState :=
  { defaultState with
    frameMeta := ⟨"study", "causeEffect", ⟨"", ""⟩⟩,
    frame := ⟨"water cycle", "how water moves around Earth", ["a b"], [[]], ""⟩ }

/-- C5 witness: the topic lock at a concrete locked state. -/
theorem C5_witness :
    (updateStateFromStudent lockedState "tides rise daily").frame.keyTopic =
      "water cycle" :=
  C5_topic_lock lockedState "tides rise daily" (by decide) (by decide) (by decide)

/-! ## C6 -/

theorem jsSetBucket_length (l : List (List String)) (i : Nat) (b : List String) :
    (jsSetBucket l i b).length = max l.length (i + 1) := by
  unfold jsSetBucket
  split_ifs with h
  · rw [List.length_set]
    omega
  · simp only [List.length_append, List.length_replicate, List.length_singleton]
    omega

theorem ensureIdxBucket_length (l : List (List String)) (i : Nat) :
    (ensureIdxBucket l i).length = max l.length (i + 1) := by
  unfold ensureIdxBucket
  split_ifs with h
  · omega
  · rw [jsSetBucket_length]

theorem padBuckets_length (d : List (List String)) (n : Nat) :
    (padBuckets d n).length = max d.length n := by
  simp only [padBuckets, List.length_append, List.length_replicate]
  omega

/-- The capture chain preserves `#mainIdeas ≤ #details`: every push of a main
idea is followed by ensuring its bucket, and detail writes only grow the
array. -/
theorem normalCapture_DI (t : TutorState) (m : String)
    (hDI : t.frame.mainIdeas.length ≤ t.frame.details.length) :
    (normalCapture t m).frame.mainIdeas.length ≤
      (normalCapture t m).frame.details.length := by
  unfold normalCapture
  rcases hp : parseKeyTopicIsAbout m with _ | p
  · simp only []
    rcases hfib : firstIncompleteBucket t.frame.mainIdeas t.frame.details with _ | i <;>
      simp only [] <;> split_ifs <;>
      first
        | exact hDI
        | (simp only [List.length_append, List.length_singleton, ensureIdxBucket_length,
            jsSetBucket_length]
           omega)
  · simp only []
    exact hDI

/-- Every dispatch branch preserves `#mainIdeas ≤ #details`. -/
theorem updateCore_DI (t : TutorState) (m : String)
    (hDI : t.frame.mainIdeas.length ≤ t.frame.details.length) :
    (updateCore t m).frame.mainIdeas.length ≤ (updateCore t m).frame.details.length := by
  unfold updateCore
  rcases hp : t.pending with _ | p
  · simp only []
    by_cases h1 : t.frameMeta.purpose = ""
    · rw [if_pos h1]
      rcases hnp : normalizePurpose m with _ | p'
      · exact normalCapture_DI t m hDI
      · exact hDI
    · rw [if_neg h1]
      by_cases h2 : t.frameMeta.frameType = ""
      · rw [if_pos h2]
        split_ifs
        · exact hDI
        · exact normalCapture_DI t m hDI
      · rw [if_neg h2]
        exact normalCapture_DI t m hDI
  · cases p with
    | confirmLanguageSwitch cc cn cnn cd =>
      simp only []
      split_ifs <;> exact hDI
    | stuckConfirm st tn rq mq =>
      simp only []
      split_ifs <;> exact hDI
    | stuckMenu st tn rq mq =>
      simp only []
      rcases hc : normalizeStuckChoice m with _ | c
      · exact hDI
      · simp only []
        split_ifs <;> exact hDI
    | stuckReask mode rq =>
      exact normalCapture_DI _ m hDI
    | stuckNudge st tn nt rq =>
      exact normalCapture_DI _ m hDI
    | stuckMini st mq rq =>
      simp only []
      rcases hst : st.getD (getStage t) with _ | _ | _ | _ | _ | i | _ | _
      · rcases hnp : normalizePurpose m with _ | p' <;> exact hDI
      · simp only []
        split_ifs <;> exact hDI
      · simp only []
        split_ifs <;> exact hDI
      · simp only []
        split_ifs <;> exact hDI
      · simp only []
        split_ifs <;>
          first
            | exact hDI
            | (simp only [List.length_append, List.length_singleton,
                ensureIdxBucket_length]
               omega)
      · simp only []
        split_ifs <;>
          first
            | exact hDI
            | (simp only [jsSetBucket_length]
               omega)
      · simp only []
        split_ifs <;> exact hDI
      · exact hDI
    | stuckSkip st rq mq =>
      simp only []
      split_ifs <;> exact hDI
    | confirmIsAbout =>
      simp only []
      split_ifs <;> exact hDI
    | confirmMainIdeas =>
      simp only []
      split_ifs <;> exact hDI
    | offerThirdMainIdea =>
      simp only []
      split_ifs <;> exact hDI
    | collectThirdMainIdea =>
      simp only []
      split_ifs <;>
        first
          | exact hDI
          | (simp only [List.length_append, List.length_singleton, ensureIdxBucket_length]
             omega)
    | offerThirdDetail i =>
      simp only []
      split_ifs <;> exact hDI
    | collectThirdDetail i =>
      simp only []
      split_ifs <;>
        first
          | exact hDI
          | (simp only [jsSetBucket_length, ensureIdxBucket_length]
             omega)
    | confirmDetails i =>
      simp only []
      split_ifs <;> exact hDI
    | offerMoreSoWhat =>
      simp only []
      split_ifs <;> exact hDI
    | collectMoreSoWhat =>
      simp only []
      exact hDI
    | confirmSoWhat =>
      simp only []
      split_ifs <;> exact hDI
    | offerExport =>
      simp only []
      split_ifs <;> exact hDI
    | chooseExportType =>
      simp only []
      exact hDI

/-- C6 (corrected): after every turn update on a normalized incoming state,
`#mainIdeas ≤ #details` and every aligned bucket exists; the original claim's
equality fails because neither normalization nor any update path ever
truncates detail buckets beyond the main-idea count (see
`C6_counterexample`). -/
theorem C6_bucket_invariant_amended (raw : RawState) (msg : String) :
    (updateStateFromStudent (normalizeIncomingState raw) msg).frame.mainIdeas.length ≤
      (updateStateFromStudent (normalizeIncomingState raw) msg).frame.details.length := by
  unfold updateStateFromStudent
  apply updateCore_DI
  show (ensureBucketsS (normalizeIncomingState raw)).frame.mainIdeas.length ≤
    (ensureBucketsS (normalizeIncomingState raw)).frame.details.length
  have hd : (ensureBucketsS (normalizeIncomingState raw)).frame.details.length =
      max (normalizeIncomingState raw).frame.details.length
        (normalizeIncomingState raw).frame.mainIdeas.length := padBuckets_length _ _
  have hm : (ensureBucketsS (normalizeIncomingState raw)).frame.mainIdeas =
      (normalizeIncomingState raw).frame.mainIdeas := rfl
  rw [hd, hm]
  omega

/-! ## C8 -/

/-- When the detail buckets already cover the main ideas, `ensureBuckets` is
the identity. -/
theorem ensureBucketsS_eq_self (s : TutorState)
    (h : s.frame.mainIdeas.length ≤ s.frame.details.length) :
    ensureBucketsS s = s := by
  unfold ensureBucketsS padBuckets
  rw [show s.frame.mainIdeas.length - s.frame.details.length = 0 by omega]
  simp only [List.replicate_zero, List.append_nil]

/-- C8 (corrected): with `confirmMainIdeas` pending, an affirmative reply
clears the pending and any other reply leaves the state unchanged.  This
consolidated variant has no `clarifyMainIdeaToRevise` /
`collectMainIdeaRevision` flow at all, so an index/ordinal revision request
is simply ignored (see `C8_counterexample`); the confirmation persists until
affirmed. -/
theorem C8_confirm_main_ideas_amended (s : TutorState) (msg : String)
    (hpend : s.pending = some Pending.confirmMainIdeas)
    (hDI : s.frame.mainIdeas.length ≤ s.frame.details.length) :
    (isAffirmative (lowTrim (cleanText msg)) = true →
        updateStateFromStudent s msg = { s with pending := none })
      ∧ (isAffirmative (lowTrim (cleanText msg)) = false →
        updateStateFromStudent s msg = s) := by
  have he : ensureBucketsS s = s := ensureBucketsS_eq_self s hDI
  unfold updateStateFromStudent
  rw [he]
  unfold updateCore
  rw [hpend]
  simp only []
  constructor
  · intro ha
    rw [if_pos ha]
  · intro hn
    rw [if_neg (by rw [hn]; simp)]

/-- A state awaiting the main-ideas confirmation. -/
def confirmIdeasState : TutorState :=
  { defaultState with
    frameMeta := ⟨"study", "causeEffect", ⟨"", ""⟩⟩,
    frame := ⟨"water cycle", "how water moves around Earth", ["aa bb", "cc dd"],
      [[], []], ""⟩,
    pending := some .confirmMainIdeas }

/-- C8 counterexample: the reply `"revise 2"` carries an index reference and
revision intent, yet the state is returned unchanged — no transition to any
`clarifyMainIdeaToRevise` pending occurs (none exists in this variant). -/
theorem C8_counterexample :
    updateStateFromStudent confirmIdeasState "revise 2" = confirmIdeasState
      ∧ (updateStateFromStudent confirmIdeasState "revise 2").pending =
          some Pending.confirmMainIdeas := by
  refine ⟨by decide, by decide⟩

/-- C8 witness: an affirmative reply clears the pending at a concrete state. -/
theorem C8_witness :
    isAffirmative (lowTrim (cleanText "yes")) = true
      ∧ updateStateFromStudent confirmIdeasState "yes" =
          { confirmIdeasState with pending := none } :=
  ⟨by decide,
    (C8_confirm_main_ideas_amended confirmIdeasState "yes" rfl (by decide)).1 (by decide)⟩

/-! ## C9 -/

/-- The `resumeQuestion` payload of a stuck pending (`none` for every
non-stuck pending). -/
def pendingResume : Pending → Option String
  | .stuckConfirm _ _ rq _ => some rq
  | .stuckMenu _ _ rq _ => some rq
  | .stuckReask _ rq => some rq
  | .stuckNudge _ _ _ rq => some rq
  | .stuckMini _ _ rq => some rq
  | .stuckSkip _ rq _ => some rq
  | _ => none

/-- Normal capture either leaves the pending untouched or installs a
non-stuck pending (which carries no resume payload). -/
theorem normalCapture_pending (s : TutorState) (msg : String) :
    (normalCapture s msg).pending = s.pending
      ∨ ∀ q, (normalCapture s msg).pending = some q → pendingResume q = none := by
  unfold normalCapture
  rcases hp : parseKeyTopicIsAbout msg with _ | p
  · simp only []
    rcases hfib : firstIncompleteBucket s.frame.mainIdeas s.frame.details with _ | i <;>
      simp only [] <;> split_ifs <;>
      first
        | exact Or.inl rfl
        | exact Or.inr (fun q hq => by cases hq; rfl)
  · simp only []
    exact Or.inr (fun q hq => by cases hq; rfl)

/-- Every transition of the dispatch between stuck pendings carries the
`resumeQuestion` forward verbatim. -/
theorem updateCore_resume (t : TutorState) (m : String) (p q : Pending) (rq : String)
    (h1 : t.pending = some p) (h2 : pendingResume p = some rq)
    (h3 : (updateCore t m).pending = some q)
    (h4 : (pendingResume q).isSome = true) : pendingResume q = some rq := by
  unfold updateCore at h3
  rw [h1] at h3
  cases p with
  | confirmLanguageSwitch cc cn cnn cd => simp [pendingResume] at h2
  | confirmIsAbout => simp [pendingResume] at h2
  | confirmMainIdeas => simp [pendingResume] at h2
  | offerThirdMainIdea => simp [pendingResume] at h2
  | collectThirdMainIdea => simp [pendingResume] at h2
  | offerThirdDetail i => simp [pendingResume] at h2
  | collectThirdDetail i => simp [pendingResume] at h2
  | confirmDetails i => simp [pendingResume] at h2
  | offerMoreSoWhat => simp [pendingResume] at h2
  | collectMoreSoWhat => simp [pendingResume] at h2
  | confirmSoWhat => simp [pendingResume] at h2
  | offerExport => simp [pendingResume] at h2
  | chooseExportType => simp [pendingResume] at h2
  | stuckConfirm st tn rq' mq =>
    have hrq : rq' = rq := by simpa [pendingResume] using h2
    subst hrq
    simp only [] at h3
    split_ifs at h3 <;>
      first
        | (cases h3; rfl)
        | (rw [h1] at h3; cases h3; rfl)
        | cases h3
  | stuckMenu st tn rq' mq =>
    have hrq : rq' = rq := by simpa [pendingResume] using h2
    subst hrq
    simp only [] at h3
    rcases hc : normalizeStuckChoice m with _ | c
    · rw [hc] at h3
      rw [h1] at h3
      cases h3
      rfl
    · rw [hc] at h3
      simp only [] at h3
      split_ifs at h3 <;>
        first
          | (cases h3; rfl)
          | (rw [h1] at h3; cases h3; rfl)
          | cases h3
  | stuckReask mode rq' =>
    rcases normalCapture_pending { t with pending := none } m with hsame | hnone
    · rw [hsame] at h3
      cases h3
    · rw [hnone q h3] at h4
      simp at h4
  | stuckNudge st tn nt rq' =>
    have hrq : rq' = rq := by simpa [pendingResume] using h2
    subst hrq
    rcases normalCapture_pending t m with hsame | hnone
    · rw [hsame] at h3
      rw [h1] at h3
      cases h3
      exact h2
    · rw [hnone q h3] at h4
      simp at h4
  | stuckMini st mq rq' =>
    simp only [] at h3
    rcases hst : st.getD (getStage t) with _ | _ | _ | _ | _ | i | _ | _ <;>
      rw [hst] at h3 <;> simp only [] at h3
    · rcases hnp : normalizePurpose m with _ | p' <;> rw [hnp] at h3 <;>
        simp only [] at h3 <;> cases h3
    · split_ifs at h3 <;> cases h3
    · split_ifs at h3 <;> cases h3
    · split_ifs at h3 <;> cases h3 <;> simp [pendingResume] at h4
    · split_ifs at h3 <;> cases h3 <;> simp [pendingResume] at h4
    · split_ifs at h3 <;> cases h3 <;> simp [pendingResume] at h4
    · split_ifs at h3 <;> cases h3 <;> simp [pendingResume] at h4
    · cases h3
  | stuckSkip st rq' mq =>
    have hrq : rq' = rq := by simpa [pendingResume] using h2
    subst hrq
    simp only [] at h3
    split_ifs at h3 <;>
      first
        | (cases h3; rfl)
        | (rw [h1] at h3; cases h3; rfl)
        | cases h3

/-- C9 (confirmed): (a) every turn-update transition between stuck pendings
carries the `resumeQuestion` payload forward character-for-character; (b) the
question emitted while `stuckReask` or `stuckNudge` is pending is a fixed
payload-determined prefix followed by the original `resumeQuestion` — it is
never recomputed from the live Frame. -/
theorem C9_stuck_resume_preserved :
    (∀ (s : TutorState) (msg : String) (p q : Pending) (rq : String),
        s.pending = some p → pendingResume p = some rq →
        (updateStateFromStudent s msg).pending = some q →
        (pendingResume q).isSome = true → pendingResume q = some rq)
      ∧ (∀ (s : TutorState) (mode rq : String),
          s.pending = some (.stuckReask mode rq) →
          computeNextQuestion s =
            (if mode = "directions" then
              "Quick reset: re-read the prompt and underline the verb (explain/argue/compare)."
             else
              "Quick reset: skim your notes/text and pick one phrase that feels important.")
              ++ " Then answer: " ++ rq)
      ∧ (∀ (s : TutorState) (st : Option Stage) (tn nt rq : String),
          s.pending = some (.stuckNudge st tn nt rq) →
          computeNextQuestion s =
            (if tn = "frustration" then "That can feel frustrating. "
             else if tn = "resistance" then "I hear you. " else "")
              ++ cleanText nt ++ " Then answer: " ++ rq) := by
  refine ⟨?_, ?_, ?_⟩
  · intro s msg p q rq h1 h2 h3 h4
    exact updateCore_resume (ensureBucketsS s) (cleanText msg) p q rq h1 h2 h3 h4
  · intro s mode rq hp
    unfold computeNextQuestion
    rw [hp]
  · intro s st tn nt rq hp
    unfold computeNextQuestion
    rw [hp]
    simp only []
    by_cases h0 : tn = ""
    · subst h0
      simp
    · simp only [if_neg h0]

/-- C9 witness: the `stuckConfirm → stuckMenu` transition at a concrete state
carries the concrete resume question forward unchanged. -/
theorem C9_witness :
    pendingResume
      (Pending.stuckMenu (some .mainIdeas) "neutral" "What is one cause?" "Mini?") =
      some "What is one cause?" :=
  C9_stuck_resume_preserved.1
    { defaultState with
      frameMeta := ⟨"study", "causeEffect", ⟨"", ""⟩⟩,
      frame := ⟨"water cycle", "how water moves around Earth", [], [], ""⟩,
      pending := some (.stuckConfirm (some .mainIdeas) "neutral" "What is one cause?"
        "Mini?") }
    "yes" _ _ "What is one cause?" rfl rfl (by decide) (by decide)

/-- C6 counterexample: a caller state with two main ideas but three detail
buckets is left at three buckets by normalization and by the update, so
`len(details) == len(mainIdeas)` is violated. -/
theorem C6_counterexample :
    ¬ ((updateStateFromStudent (normalizeIncomingState
          { frame := some { mainIdeas := some ["alpha beta", "gamma delta"],
                            details := .arr [some [], some [], some []] } })
          "hello").frame.details.length =
        (updateStateFromStudent (normalizeIncomingState
          { frame := some { mainIdeas := some ["alpha beta", "gamma delta"],
                            details := .arr [some [], some [], some []] } })
          "hello").frame.mainIdeas.length) := by
  decide

/-- C3 witness: the amended theorem at a concrete state (purpose and frame
type chosen, slots empty) and the Dust Bowl message. -/
theorem C3_witness :
    (updateStateFromStudent
        { defaultState with frameMeta := ⟨"study", "causeEffect", ⟨"", ""⟩⟩ }
        "The Dust Bowl is about how drought leads to migration").frame.keyTopic =
      "The Dust Bowl" :=
  (C3_extraction_amended
    { defaultState with frameMeta := ⟨"study", "causeEffect", ⟨"", ""⟩⟩ }
    "The Dust Bowl is about how drought leads to migration"
    "The Dust Bowl" "how drought leads to migration"
    rfl rfl rfl (by decide) (by decide) (by decide) (by decide)).1

/-! ## C10 -/

/-- `classifyMessage` never sets the `blocked` property the handler reads. -/
theorem classifyMessage_blocked (m : String) : (classifyMessage m).blocked = none := by
  simp only [classifyMessage]
  split_ifs <;> rfl

/-- What `attachExports` guarantees about the returned state: the bundle is
attached iff the frame is complete and no pending is active, and otherwise
`exports` is `null`. -/
theorem attachExports_spec (st : TutorState) :
    ((attachExports st).exports = none ↔
        ¬ (isFrameComplete (attachExports st) = true ∧ (attachExports st).pending = none))
      ∧ ((isFrameComplete (attachExports st) = true ∧ (attachExports st).pending = none) →
          (attachExports st).exports =
            some ⟨buildFrameText (attachExports st), buildTranscriptText (attachExports st),
              buildExportHtml (attachExports st)⟩) := by
  unfold attachExports
  by_cases h : (isFrameComplete st && decide (st.pending = none)) = true
  · rw [if_pos h]
    simp only [Bool.and_eq_true, decide_eq_true_eq] at h
    refine ⟨⟨fun habs => absurd habs (by simp), fun hn => absurd ⟨h.1, h.2⟩ hn⟩, fun _ => rfl⟩
  · rw [if_neg h]
    simp only [Bool.and_eq_true, decide_eq_true_eq, not_and] at h
    refine ⟨⟨fun _ hc => h hc.1 hc.2, fun _ => rfl⟩, fun hc => absurd hc.2 (h hc.1)⟩

/-- The common tail always returns an `attachExports` state. -/
theorem handlerFinish_shape (o : Oracle) (message : String) (state : TutorState) :
    ∃ st r, handlerFinish o message state = ⟨r, attachExports st⟩ := by
  unfold handlerFinish
  exact ⟨_, _, rfl⟩

/-- Whenever the incoming pending is not `confirmLanguageSwitch`, the main
flow exits through the exports attachment. -/
theorem handlerMain_shape (o : Oracle) (message : String) (state : TutorState)
    (hcls : isCLSPending state.pending = false) :
    ∃ st r, handlerMain o message state = ⟨r, attachExports st⟩ := by
  unfold handlerMain
  rw [hcls]
  simp only [Bool.false_and, Bool.false_eq_true, if_false]
  by_cases hm : message ≠ ""
  · rw [if_pos hm]
    by_cases hs : (!inProtectedPending state.pending && isStuckMessage message) = true
    · rw [if_pos hs]
      exact ⟨_, _, rfl⟩
    · rw [if_neg hs]
      exact handlerFinish_shape o message _
  · rw [if_neg hm]
    exact handlerFinish_shape o message state

/-- With the dead safety gate and no language detection, the handler is the
main flow on the normalized state. -/
theorem handler_eq_handlerMain (o : Oracle) (messageRaw : String) (raw : RawState)
    (hdet : detectLanguageViaLLM o.detect (cleanText messageRaw) = none) :
    handler o messageRaw raw =
      handlerMain o (cleanText messageRaw) (normalizeIncomingState raw) := by
  simp only [handler, classifyMessage_blocked, Option.getD_none, Bool.and_false,
    Bool.false_eq_true, if_false]
  simp only [handlerDetect]
  split_ifs with h
  · simp only [hdet]
  · rfl

/-- C10 (corrected): on every turn that is not short-circuited by the
language-switch flow (the incoming pending is not `confirmLanguageSwitch` and
detection does not fire), the returned state carries the export bundle iff
the frame is complete with no pending, and `exports = null` otherwise.  The
original unconditional claim fails: the language-switch short-circuit paths
(and the dead safety path) pass the incoming `exports` through untouched, see
`C10_counterexample`. -/
theorem C10_exports_amended (o : Oracle) (messageRaw : String) (raw : RawState)
    (hcls : isCLSPending (normalizeIncomingState raw).pending = false)
    (hdet : detectLanguageViaLLM o.detect (cleanText messageRaw) = none) :
    ((handler o messageRaw raw).state.exports = none ↔
        ¬ (isFrameComplete (handler o messageRaw raw).state = true
            ∧ (handler o messageRaw raw).state.pending = none))
      ∧ ((isFrameComplete (handler o messageRaw raw).state = true
            ∧ (handler o messageRaw raw).state.pending = none) →
          (handler o messageRaw raw).state.exports =
            some ⟨buildFrameText (handler o messageRaw raw).state,
              buildTranscriptText (handler o messageRaw raw).state,
              buildExportHtml (handler o messageRaw raw).state⟩) := by
  rw [handler_eq_handlerMain o messageRaw raw hdet]
  obtain ⟨st, r, heq⟩ :=
    handlerMain_shape o (cleanText messageRaw) (normalizeIncomingState raw) hcls
  rw [heq]
  exact attachExports_spec st

/-- An incoming state parked on the language-switch confirmation that still
carries a stale exports bundle. -/
def staleExportsRaw : RawState :=
  { pending := some (.confirmLanguageSwitch "es" "Spanish" "español" "ltr"),
    exports := some ⟨"x", "y", "z"⟩ }

/-- C10 counterexample: on the language-switch short-circuit path (reply
`"hola"` that the yes/no classifier cannot decide), the returned state keeps
the stale non-null `exports` although the frame is incomplete and a pending
is active — `exports` is not reset to null on that turn. -/
theorem C10_counterexample :
    (handler noopOracle "hola" staleExportsRaw).state.exports = some ⟨"x", "y", "z"⟩
      ∧ isFrameComplete (handler noopOracle "hola" staleExportsRaw).state = false
      ∧ (handler noopOracle "hola" staleExportsRaw).state.pending ≠ none := by
  refine ⟨by decide, by decide, by decide⟩

/-- C10 witness: the amended theorem at a concrete incomplete state, showing
`exports = null` after an ordinary turn. -/
theorem C10_witness :
    (handler noopOracle "maybe later" {}).state.exports = none :=
  (C10_exports_amended noopOracle "maybe later" {} (by decide) (by decide)).1.mpr
    (by intro hc; exact absurd hc.1 (by decide))

end Kawtutor
